import Mathlib

/-!
Verification development for the VIP Afterparty RGS core.

The definitions below are a shallow embedding of the Python sources:
  * `src/backend/app/logic/models.py`  — state and result records,
  * `src/backend/app/logic/engine.py`  — the spin engine,
  * `src/backend/app/redis_service.py` — idempotency cache and player lock,
  * `src/backend/app/main.py`          — the spin orchestrator,
  * `src/backend/app/telemetry.py`     — exception-safe telemetry,
  * `src/backend/scripts/audit_sim.py` — the audit simulator and CSV writer.

Conventions:
  * Python `float` is modeled as `ℚ`; decimal literals are the exact decimals
    written in the source.  None of the properties proved here depends on
    binary rounding of IEEE doubles.
  * Python `int` is modeled as `ℤ` (`%` is `Int.emod`, matching Python's
    nonnegative remainder for a positive modulus).
  * The RNG is modeled as two streams of drawn values together with a pair of
    call counters (`RNGCtr`).  `randint a b` maps an arbitrary stream value
    into `[a, b]`; every value of the Python API is realizable and every model
    value is in range, so quantifying over streams covers all RNG behaviours.
  * `GameState.bonus_is_bought` is listed here although `models.py` omits it
    from the field list: the engine, the orchestrator and the test-suite all
    read and write it as a state field, so the embedding includes it (default
    `false`, as the tests construct it).
  * External stdlib collaborators that the spec declares out of scope
    (SHA-256 via `hashlib`, canonical JSON via `json.dumps`, the Mersenne
    Twister behind `random.Random`) are modeled as parameters: an arbitrary
    deterministic hash function, and an arbitrary seed-indexed stream family.
-/

namespace VIP

/-! ## Enums (`models.py`, `protocol.py`) -/

inductive GameMode
  | BASE
  | FREE_SPINS
deriving DecidableEq, Repr

inductive SpinMode
  | NORMAL
  | BUY_FEATURE
deriving DecidableEq, Repr

/-- Symbol codes per `models.Symbol` (placeholder int values). -/
def WILD : ℕ := 0
def SCATTER : ℕ := 1
def HIGH1 : ℕ := 2
def HIGH2 : ℕ := 3
def HIGH3 : ℕ := 4
def MID1 : ℕ := 5
def MID2 : ℕ := 6
def LOW1 : ℕ := 7
def LOW2 : ℕ := 8
def LOW3 : ℕ := 9

/-! ## Player state (`models.GameState`) -/

structure GameState where
  mode : GameMode := .BASE
  free_spins_remaining : ℤ := 0
  heat_level : ℤ := 0
  bonus_is_bought : Bool := false
  afterparty_meter : ℤ := 0
  rage_active : Bool := false
  rage_spins_left : ℤ := 0
  rage_deferred : Bool := false
  deadspins_streak : ℤ := 0
  smallwins_streak : ℤ := 0
  spins_in_window : ℤ := 0
  events_in_window : ℤ := 0
  boost_in_window : ℤ := 0
  rage_in_window : ℤ := 0
  explosive_in_window : ℤ := 0
  rage_cooldown_remaining : ℤ := 0
deriving DecidableEq, Repr

/-! ## Engine configuration constants (`engine.py` lines 10-79, defaults of
`config.Settings`) -/

def MAX_WIN_TOTAL_X : ℚ := 25000
def ENABLE_SPOTLIGHT_WILDS : Bool := true
def SPOTLIGHT_WILDS_FREQUENCY : ℚ := 0.05
def SPOTLIGHT_WILDS_MIN_POS : ℤ := 1
def SPOTLIGHT_WILDS_MAX_POS : ℤ := 3
def HYPE_MODE_COST_INCREASE : ℚ := 0.25
def HYPE_MODE_BONUS_CHANCE_MULTIPLIER : ℚ := 2.0
def FREE_SPINS_WIN_MULTIPLIER : ℤ := 11
def ENABLE_AFTERPARTY_METER : Bool := true
def AFTERPARTY_METER_MAX : ℤ := 100
def AFTERPARTY_RAGE_SPINS : ℤ := 3
def AFTERPARTY_RAGE_MULTIPLIER : ℤ := 2
def AFTERPARTY_METER_INC_ON_ANY_WIN : ℤ := 3
def AFTERPARTY_METER_INC_ON_WILD_PRESENT : ℤ := 5
def AFTERPARTY_METER_INC_ON_TWO_SCATTERS : ℤ := 8
def AFTERPARTY_RAGE_COOLDOWN_SPINS : ℤ := 15
def BOOST_TRIGGER_SMALLWINS : ℤ := 4
def EXPLOSIVE_TRIGGER_WIN_X : ℚ := 5
def BOOST_SPINS : ℤ := 3
def EXPLOSIVE_SPINS : ℤ := 1
def EVENT_MAX_RATE_PER_100_SPINS : ℤ := 18
def BOOST_MAX_RATE_PER_100_SPINS : ℤ := 8
def EXPLOSIVE_MAX_RATE_PER_100_SPINS : ℤ := 10
def WIN_TIER_BIG : ℚ := 20.0
def WIN_TIER_MEGA : ℚ := 200.0
def WIN_TIER_EPIC : ℚ := 1000.0
def REELS : ℕ := 5
def ROWS : ℕ := 3

/-- Paylines (`engine.PAYLINES`): row index per reel. -/
def PAYLINES : List (List ℕ) :=
  [[1, 1, 1, 1, 1],
   [0, 0, 0, 0, 0],
   [2, 2, 2, 2, 2],
   [0, 1, 2, 1, 0],
   [2, 1, 0, 1, 2],
   [0, 0, 1, 2, 2],
   [2, 2, 1, 0, 0],
   [1, 0, 0, 0, 1],
   [1, 2, 2, 2, 1],
   [0, 1, 1, 1, 0]]

/-- `engine.SCATTER_PAYS`: the dict `{3: 2, 4: 10, 5: 50}`; `none` models a
missing key (the code checks `scatter_count in SCATTER_PAYS`). -/
def SCATTER_PAYS : ℕ → Option ℚ := fun c =>
  if c = 3 then some 2 else if c = 4 then some 10 else if c = 5 then some 50 else none

/-! ## Events (`engine.py` event dicts; tag plus the fixed attribute set) -/

inductive Event
  | reveal (grid : List (List ℕ))
  | spotlightWilds (positions : List ℕ) (count : ℕ)
  | winLine (lineId : ℤ) (amount : ℚ) (winX : ℚ)
  | afterpartyMeterUpdate (level : ℤ) (triggered : Bool)
  | eventStart (eventType : String) (reason : String) (durationSpins : ℤ)
      (multiplier : Option ℤ)
  | eventEnd (eventType : String)
  | enterFreeSpins (count : ℤ) (reason : String) (bonusVariant : String)
  | heatUpdate (level : ℤ)
  | bonusEnd (bonusType : String) (finalePath : String) (totalWinX : ℚ)
      (vip : Option (String × ℤ × ℚ))
  | winTier (tier : String) (winX : ℚ)
deriving DecidableEq, Repr

/-! ## RNG (`rng.py`): the engine only observes the sequences of returned
values, so a stream per method plus call counters is fully general. -/

structure RNGStream where
  floats : ℕ → ℚ
  ints : ℕ → ℤ

structure RNGCtr where
  f : ℕ := 0
  i : ℕ := 0
deriving DecidableEq, Repr

/-- One `rng.random()` call. -/
def randF (g : RNGStream) (c : RNGCtr) : ℚ × RNGCtr :=
  (g.floats c.f, { c with f := c.f + 1 })

/-- One `rng.randint(a, b)` call.  The returned value ranges over exactly
`[a, b]` (for `a ≤ b`), as the Python API guarantees; which value is drawn is
arbitrary per call, via the `ints` stream. -/
def randI (g : RNGStream) (c : RNGCtr) (a b : ℤ) : ℤ × RNGCtr :=
  (a + (g.ints c.i) % (b - a + 1), { c with i := c.i + 1 })

/-! ## Grid generation (`engine._generate_grid`) -/

/-- Weighted symbol selection thresholds (engine lines 412-432).  Note the
function takes no hype flag: the thresholds are fixed constants. -/
def symbolFor (r : ℚ) : ℕ :=
  if r < 0.02 then SCATTER
  else if r < 0.07 then WILD
  else if r < 0.17 then HIGH1
  else if r < 0.27 then HIGH2
  else if r < 0.37 then HIGH3
  else if r < 0.52 then MID1
  else if r < 0.67 then MID2
  else if r < 0.78 then LOW1
  else if r < 0.89 then LOW2
  else LOW3

def genCells (g : RNGStream) : ℕ → RNGCtr → List ℕ × RNGCtr
  | 0, c => ([], c)
  | n + 1, c =>
    let (r, c1) := randF g c
    let (rest, c2) := genCells g n c1
    (symbolFor r :: rest, c2)

def genReels (g : RNGStream) : ℕ → RNGCtr → List (List ℕ) × RNGCtr
  | 0, c => ([], c)
  | n + 1, c =>
    let (reel, c1) := genCells g ROWS c
    let (rest, c2) := genReels g n c1
    (reel :: rest, c2)

def generateGrid (g : RNGStream) (c : RNGCtr) : List (List ℕ) × RNGCtr :=
  genReels g REELS c

/-! ## Spotlight Wilds (`engine._apply_spotlight_wilds`) -/

def cellAt (grid : List (List ℕ)) (reel row : ℕ) : ℕ :=
  (grid.getD reel []).getD row 0

def setCell (grid : List (List ℕ)) (reel row v : ℕ) : List (List ℕ) :=
  grid.set reel ((grid.getD reel []).set row v)

/-- The inner `while attempts < 100` retry; the fuel argument is the attempts
budget.  A duplicate position consumes one attempt; a fresh one is taken. -/
def spotPick (g : RNGStream) : ℕ → RNGCtr → List ℕ → List (List ℕ) →
    List ℕ × List (List ℕ) × RNGCtr
  | 0, c, positions, grid => (positions, grid, c)
  | fuel + 1, c, positions, grid =>
    let (p, c1) := randI g c 0 ((REELS * ROWS : ℕ) - 1)
    let pos := p.toNat
    if pos ∈ positions then spotPick g fuel c1 positions grid
    else (positions ++ [pos], setCell grid (pos / ROWS) (pos % ROWS) WILD, c1)

def spotLoop (g : RNGStream) : ℕ → RNGCtr → List ℕ → List (List ℕ) →
    List ℕ × List (List ℕ) × RNGCtr
  | 0, c, positions, grid => (positions, grid, c)
  | n + 1, c, positions, grid =>
    let (ps, gr, c1) := spotPick g 100 c positions grid
    spotLoop g n c1 ps gr

def applySpotlightWilds (g : RNGStream) (c : RNGCtr) (grid : List (List ℕ)) :
    List ℕ × List (List ℕ) × RNGCtr :=
  let (k, c1) := randI g c SPOTLIGHT_WILDS_MIN_POS SPOTLIGHT_WILDS_MAX_POS
  spotLoop g k.toNat c1 [] grid

/-! ## Specials count (`engine._count_specials`) -/

def countSpecials (grid : List (List ℕ)) : ℕ × ℕ :=
  grid.foldl
    (fun acc reel =>
      reel.foldl
        (fun acc2 s =>
          if s = SCATTER then (acc2.1 + 1, acc2.2)
          else if s = WILD then (acc2.1, acc2.2 + 1)
          else acc2)
        acc)
    (0, 0)

/-! ## Line evaluation (`engine._check_line`) -/

/-- The payout table dicts of `_check_line`; unknown first symbols fall back to
`{3: 0.5, 4: 2, 5: 5}`, and a run length outside the dict pays 0. -/
def multTable (s : ℤ) (c : ℕ) : ℚ :=
  if s = (HIGH1 : ℕ) then (if c = 3 then 1.70 else if c = 4 then 8.56 else if c = 5 then 85.6 else 0)
  else if s = (HIGH2 : ℕ) then (if c = 3 then 1.31 else if c = 4 then 6.58 else if c = 5 then 66.2 else 0)
  else if s = (HIGH3 : ℕ) then (if c = 3 then 1.03 else if c = 4 then 5.15 else if c = 5 then 51.5 else 0)
  else if s = (MID1 : ℕ) then (if c = 3 then 0.64 else if c = 4 then 3.22 else if c = 5 then 25.3 else 0)
  else if s = (MID2 : ℕ) then (if c = 3 then 0.52 else if c = 4 then 2.53 else if c = 5 then 17.0 else 0)
  else if s = (LOW1 : ℕ) then (if c = 3 then 0.33 else if c = 4 then 1.21 else if c = 5 then 6.6 else 0)
  else if s = (LOW2 : ℕ) then (if c = 3 then 0.23 else if c = 4 then 0.95 else if c = 5 then 4.7 else 0)
  else if s = (LOW3 : ℕ) then (if c = 3 then 0.14 else if c = 4 then 0.66 else if c = 5 then 3.27 else 0)
  else if s = (WILD : ℕ) then (if c = 3 then 3.22 else if c = 4 then 16.7 else if c = 5 then 167.4 else 0)
  else (if c = 3 then 0.5 else if c = 4 then 2 else if c = 5 then 5 else 0)

/-- The `first_symbol` selection: first non-scatter if it is not WILD, else the
fallback `symbols[0] if symbols[0] != SCATTER else -1`. -/
def lineFirstSymbol (s0 : ℕ) (symbols : List ℕ) : ℤ :=
  match symbols.find? (fun s => s ≠ SCATTER) with
  | some s => if s ≠ WILD then (s : ℤ) else (if s0 ≠ SCATTER then (s0 : ℤ) else -1)
  | none => if s0 ≠ SCATTER then (s0 : ℤ) else -1

/-- The counting loop of `_check_line`: returns the run length and the final
(possibly wild-adopted) first symbol. -/
def countRun : List ℕ → ℤ → ℕ × ℤ
  | [], fs => (0, fs)
  | s :: rest, fs =>
    if s = SCATTER then (0, fs)
    else if (s : ℤ) = fs ∨ s = WILD ∨ fs = ((WILD : ℕ) : ℤ) then
      let fs1 := if fs = ((WILD : ℕ) : ℤ) ∧ s ≠ WILD then (s : ℤ) else fs
      let (cnt, fs2) := countRun rest fs1
      (cnt + 1, fs2)
    else (0, fs)

def checkLine (symbols : List ℕ) (base_bet : ℚ) : ℚ × ℕ :=
  match symbols with
  | [] => (0, 0)
  | s0 :: _ =>
    let fs := lineFirstSymbol s0 symbols
    let (count, fsFinal) := countRun symbols fs
    if count < 3 then (0, count)
    else (base_bet * multTable fsFinal count, count)

/-! ## Win calculation (`engine._calculate_win`) -/

def lineSymbols (grid : List (List ℕ)) (payline : List ℕ) : List ℕ :=
  (List.range REELS).map (fun reel => cellAt grid reel (payline.getD reel 0))

def countScattersOnly (grid : List (List ℕ)) : ℕ :=
  grid.foldl (fun acc reel => reel.foldl (fun a s => if s = SCATTER then a + 1 else a) acc) 0

def calculateWin (grid : List (List ℕ)) (base_bet : ℚ) : ℚ × List Event :=
  let step := fun (acc : ℚ × List Event) (p : ℕ × List ℕ) =>
    let (amt, _cnt) := checkLine (lineSymbols grid p.2) base_bet
    if amt > 0 then
      (acc.1 + amt,
       acc.2 ++ [Event.winLine (p.1 : ℤ) amt (if base_bet > 0 then amt / base_bet else 0)])
    else acc
  let lines := PAYLINES.enum.foldl step (0, [])
  let sc := countScattersOnly grid
  match SCATTER_PAYS sc with
  | some pay =>
    if sc ≥ 3 then
      let scatterWin := base_bet * pay
      (lines.1 + scatterWin,
       lines.2 ++ [Event.winLine (-1) scatterWin (if base_bet > 0 then scatterWin / base_bet else 0)])
    else lines
  | none => lines

/-! ## The spin pipeline (`engine.GameEngine.spin`)

The Python code first deep-copies the input state into `result.next_state`; in
the BUY_FEATURE entry branch it then rebinds the local `state` to that very
object, so from then on every read of `state.x` observes the writes done to
`next_state`.  Each step function below therefore receives two states: `rd`
(what the Python variable `state` denotes at that point: the original input
state, or — after a buy entry — the current next state) and `n` (the next
state accumulated so far). -/

/-- Buy-feature entry (engine lines 122-136). -/
def buyEntryState (s : GameState) : GameState :=
  { s with mode := .FREE_SPINS, free_spins_remaining := 10, heat_level := 1,
           bonus_is_bought := true }

def buyEvents : List Event :=
  [Event.enterFreeSpins 10 "buy_feature" "vip_buy", Event.heatUpdate 1]

/-- The state the local `state` refers to immediately after the buy branch. -/
def effEntryState (mode : SpinMode) (s : GameState) : GameState :=
  if mode = SpinMode.BUY_FEATURE ∧ s.mode = GameMode.BASE then buyEntryState s else s

/-- Win multiplier (engine lines 177-187): 11x for bought free spins, 2x under
active rage. -/
def spinMultiplier (rd : GameState) : ℚ :=
  (if rd.mode = GameMode.FREE_SPINS ∧ rd.bonus_is_bought then (FREE_SPINS_WIN_MULTIPLIER : ℚ) else 1) *
  (if rd.rage_active ∧ rd.rage_spins_left > 0 then (AFTERPARTY_RAGE_MULTIPLIER : ℚ) else 1)

structure CapResult where
  total_win : ℚ
  total_win_x : ℚ
  is_capped : Bool
  cap_reason : Option String
deriving DecidableEq, Repr

/-- Cap enforcement (engine lines 189-199). -/
def capOutcome (effMode : GameMode) (base_bet base_win mult : ℚ) : CapResult :=
  let total_win := base_win * mult
  let twx := if base_bet > 0 then total_win / base_bet else 0
  if twx > MAX_WIN_TOTAL_X then
    { total_win := MAX_WIN_TOTAL_X * base_bet, total_win_x := MAX_WIN_TOTAL_X,
      is_capped := true,
      cap_reason := some (if effMode = GameMode.BASE then "max_win_base" else "max_win_bonus") }
  else
    { total_win := total_win, total_win_x := twx, is_capped := false, cap_reason := none }

/-- Afterparty meter update (engine lines 214-260). -/
def stepMeter (rd n : GameState) (total_win : ℚ) (wilds scatters : ℕ) :
    GameState × List Event :=
  if ENABLE_AFTERPARTY_METER ∧ rd.mode = GameMode.BASE ∧ ¬rd.rage_active then
    let meterBefore := n.afterparty_meter
    let m1 := if total_win > 0 then
        min (n.afterparty_meter + AFTERPARTY_METER_INC_ON_ANY_WIN) AFTERPARTY_METER_MAX
      else n.afterparty_meter
    let m2 := if wilds > 0 then
        min (m1 + AFTERPARTY_METER_INC_ON_WILD_PRESENT) AFTERPARTY_METER_MAX
      else m1
    let m3 := if scatters = 2 then
        min (m2 + AFTERPARTY_METER_INC_ON_TWO_SCATTERS) AFTERPARTY_METER_MAX
      else m2
    let triggered := m3 ≥ AFTERPARTY_METER_MAX ∧ rd.rage_cooldown_remaining = 0
    let n2 :=
      if triggered then
        { n with afterparty_meter := 0, rage_active := true,
                 rage_spins_left := AFTERPARTY_RAGE_SPINS }
      else { n with afterparty_meter := m3 }
    let evs :=
      (if n2.afterparty_meter ≠ meterBefore ∨ triggered then
        [Event.afterpartyMeterUpdate n2.afterparty_meter triggered]
      else []) ++
      (if triggered then
        [Event.eventStart "afterpartyRage" "meter_full" AFTERPARTY_RAGE_SPINS
          (some AFTERPARTY_RAGE_MULTIPLIER)]
      else [])
    (n2, evs)
  else (n, [])

/-- Streak counters (engine lines 262-272). -/
def stepStreaks (rd n : GameState) (twx : ℚ) : GameState :=
  if rd.mode = GameMode.BASE then
    if twx = 0 then
      { n with deadspins_streak := rd.deadspins_streak + 1, smallwins_streak := 0 }
    else if twx ≤ 2 then
      { n with smallwins_streak := rd.smallwins_streak + 1, deadspins_streak := 0 }
    else { n with deadspins_streak := 0, smallwins_streak := 0 }
  else n

/-- Cooldown decrement (engine lines 274-276). -/
def stepCooldown (rd n : GameState) : GameState :=
  if rd.rage_cooldown_remaining > 0 then
    { n with rage_cooldown_remaining := rd.rage_cooldown_remaining - 1 }
  else n

/-- Rage progression (engine lines 278-285). -/
def stepRage (rd n : GameState) : GameState × List Event :=
  if rd.rage_active then
    let n1 := { n with rage_spins_left := rd.rage_spins_left - 1 }
    if n1.rage_spins_left ≤ 0 then
      ({ n1 with rage_active := false, afterparty_meter := 0,
                 rage_cooldown_remaining := AFTERPARTY_RAGE_COOLDOWN_SPINS },
       [Event.eventEnd "afterpartyRage"])
    else (n1, [])
  else (n, [])

/-- Window counter and boost/explosive triggers (engine lines 287-326).
Both trigger blocks read the stale `state.events_in_window`, so a spin firing
both writes `events_in_window = state.events_in_window + 1`, not `+ 2`. -/
def stepWindow (rd n : GameState) (twx : ℚ) : GameState × List Event :=
  let n1 := { n with spins_in_window := (rd.spins_in_window + 1) % 100 }
  let canTrigger := rd.events_in_window < EVENT_MAX_RATE_PER_100_SPINS
  let boostFires := canTrigger ∧ ¬rd.rage_active ∧ rd.mode = GameMode.BASE ∧
    n1.smallwins_streak ≥ BOOST_TRIGGER_SMALLWINS ∧
    rd.boost_in_window < BOOST_MAX_RATE_PER_100_SPINS
  let n2 := if boostFires then
      { n1 with smallwins_streak := 0, boost_in_window := rd.boost_in_window + 1,
                events_in_window := rd.events_in_window + 1 }
    else n1
  let evB := if boostFires then
      [Event.eventStart "boost" "smallwins" BOOST_SPINS none] else []
  let explosiveFires := canTrigger ∧ rd.mode = GameMode.BASE ∧
    twx ≥ EXPLOSIVE_TRIGGER_WIN_X ∧
    rd.explosive_in_window < EXPLOSIVE_MAX_RATE_PER_100_SPINS
  let n3 := if explosiveFires then
      { n2 with explosive_in_window := rd.explosive_in_window + 1,
                events_in_window := rd.events_in_window + 1 }
    else n2
  let evE := if explosiveFires then
      [Event.eventStart "explosive" "win_threshold" EXPLOSIVE_SPINS none] else []
  (n3, evB ++ evE)

/-- Natural free-spins trigger (engine lines 333-345). -/
def stepScatterTrigger (rd n : GameState) (scatters : ℕ) : GameState × List Event :=
  if scatters ≥ 3 ∧ rd.mode = GameMode.BASE then
    let cnt : ℤ := 10 + ((scatters : ℤ) - 3) * 2
    ({ n with mode := .FREE_SPINS, free_spins_remaining := cnt, heat_level := 1 },
     [Event.enterFreeSpins cnt "scatter" "standard", Event.heatUpdate 1])
  else (n, [])

/-- Free-spins progression and bonus end (engine lines 347-383). -/
def stepFreeSpins (rd n : GameState) (total_win twx : ℚ) : GameState × List Event :=
  if rd.mode = GameMode.FREE_SPINS then
    let n1 := { n with free_spins_remaining := rd.free_spins_remaining - 1 }
    let heatFires := total_win > 0 ∧ rd.heat_level < 10
    let n2 := if heatFires then { n1 with heat_level := rd.heat_level + 1 } else n1
    let evH := if heatFires then [Event.heatUpdate (rd.heat_level + 1)] else []
    if n2.free_spins_remaining ≤ 0 then
      let finale := if n2.heat_level ≥ 10 then "upgrade"
        else if twx ≥ 20 then "multiplier" else "standard"
      let vip := if rd.bonus_is_bought then
          some ("vip_buy", FREE_SPINS_WIN_MULTIPLIER, twx / (FREE_SPINS_WIN_MULTIPLIER : ℚ))
        else none
      ({ n2 with mode := .BASE, heat_level := 0, bonus_is_bought := false },
       evH ++ [Event.bonusEnd "freespins" finale twx vip])
    else (n2, evH)
  else (n, [])

/-- Win tier (engine lines 385-400). -/
def winTierOf (twx : ℚ) : String :=
  if twx ≥ WIN_TIER_EPIC then "epic"
  else if twx ≥ WIN_TIER_MEGA then "mega"
  else if twx ≥ WIN_TIER_BIG then "big"
  else "none"

/-- The `winTier` event appended last when the tier is not `"none"`. -/
def tierEvents (twx : ℚ) : List Event :=
  if winTierOf twx ≠ "none" then [Event.winTier (winTierOf twx) twx] else []

/-- The `spotlightWilds` event, appended only when positions were selected
(`if spotlight_positions:`). -/
def spotEvents (positions : List ℕ) : List Event :=
  if positions ≠ [] then [Event.spotlightWilds positions positions.length] else []

/-- Whether the buy-feature entry branch fires (engine line 122), in which
case the Python local `state` is rebound to `result.next_state` and later
reads of `state` alias the accumulating next state. -/
def buyP (mode : SpinMode) (state? : Option GameState) : Prop :=
  mode = SpinMode.BUY_FEATURE ∧ (state?.getD {}).mode = GameMode.BASE

instance (mode : SpinMode) (state? : Option GameState) : Decidable (buyP mode state?) :=
  instDecidableAnd

/-- Steps 10-14 of the engine: the state pipeline after cap enforcement,
together with the event segments each step emits.  `buy` selects the read
state at each step: the aliased current next state, or the original input
state `s0`. -/
def spinSteps (buy : Prop) [Decidable buy] (s0 n0 : GameState)
    (total_win twx : ℚ) (wilds scatters : ℕ) :
    GameState × List Event × List Event × List Event × List Event × List Event :=
  let m := stepMeter (if buy then n0 else s0) n0 total_win wilds scatters
  let n1 := m.1
  let n2 := stepStreaks (if buy then n1 else s0) n1 twx
  let n3 := stepCooldown (if buy then n2 else s0) n2
  let r := stepRage (if buy then n3 else s0) n3
  let n4 := r.1
  let wn := stepWindow (if buy then n4 else s0) n4 twx
  let n5 := wn.1
  let sc6 := stepScatterTrigger (if buy then n5 else s0) n5 scatters
  let n6 := sc6.1
  let fs := stepFreeSpins (if buy then n6 else s0) n6 total_win twx
  (fs.1, m.2, r.2, wn.2, sc6.2, fs.2)

structure SpinResult where
  grid : List (List ℕ) := []
  base_win : ℚ := 0
  total_win : ℚ := 0
  total_win_x : ℚ := 0
  is_capped : Bool := false
  cap_reason : Option String := none
  events : List Event := []
  next_state : GameState := {}
  spotlight_used : Bool := false
  spotlight_positions : List ℕ := []
  scatter_count : ℕ := 0
  wild_count : ℕ := 0
  win_tier : String := "none"
deriving DecidableEq, Repr

/-- `GameEngine.spin`.  `state?` is the optional input state (`None` is a
fresh `GameState()`).  Returns the result and the advanced RNG counters. -/
def spin (g : RNGStream) (c : RNGCtr) (bet : ℚ) (mode : SpinMode) (hype : Bool)
    (state? : Option GameState) : SpinResult × RNGCtr :=
  let s0 := state?.getD {}
  let buy := buyP mode state?
  let n0 := effEntryState mode s0
  let evBuy := if buy then buyEvents else []
  -- engine lines 138-144: `effective_cost` is computed and never used
  let _effective_cost := if hype then bet * (1 + HYPE_MODE_COST_INCREASE) else bet
  let (grid0, c1) := generateGrid g c
  let (spotR, c2) := randF g c1
  let spotTrig := ENABLE_SPOTLIGHT_WILDS ∧ spotR < SPOTLIGHT_WILDS_FREQUENCY
  let (spotPositions, grid, c3) :=
    if spotTrig then applySpotlightWilds g c2 grid0 else ([], grid0, c2)
  let (scatters, wilds) := countSpecials grid
  let (baseWin, winEvents) := calculateWin grid bet
  -- at the multiplier and cap reads (engine lines 182-197) no write has
  -- happened since the entry branch, so the Python local `state` denotes
  -- `n0` in the aliased case and `s0 = n0` otherwise
  let mult := spinMultiplier n0
  let cap := capOutcome n0.mode bet baseWin mult
  -- engine lines 328-331: `base_scatter_chance` is computed and never used
  let _base_scatter_chance :=
    if hype then (0.02 : ℚ) * HYPE_MODE_BONUS_CHANCE_MULTIPLIER else (0.02 : ℚ)
  let steps := spinSteps buy s0 n0 cap.total_win cap.total_win_x wilds scatters
  let events := evBuy ++ [Event.reveal grid] ++ spotEvents spotPositions ++
    winEvents ++ steps.2.1 ++ steps.2.2.1 ++ steps.2.2.2.1 ++ steps.2.2.2.2.1 ++
    steps.2.2.2.2.2 ++ tierEvents cap.total_win_x
  ({ grid := grid
     base_win := baseWin
     total_win := cap.total_win
     total_win_x := cap.total_win_x
     is_capped := cap.is_capped
     cap_reason := cap.cap_reason
     events := events
     next_state := steps.1
     spotlight_used := spotTrig
     spotlight_positions := spotPositions
     scatter_count := scatters
     wild_count := wilds
     win_tier := winTierOf cap.total_win_x }, c3)

/-! ## Error taxonomy (`errors.py`) -/

inductive ErrorCode
  | INVALID_REQUEST
  | INVALID_BET
  | FEATURE_DISABLED
  | INSUFFICIENT_FUNDS
  | ROUND_IN_PROGRESS
  | IDEMPOTENCY_CONFLICT
  | RATE_LIMIT_EXCEEDED
  | MAINTENANCE
  | INTERNAL_ERROR
  | NOT_IMPLEMENTED
deriving DecidableEq, Repr

def errorHttpStatus : ErrorCode → ℕ
  | .INVALID_REQUEST => 400
  | .INVALID_BET => 400
  | .FEATURE_DISABLED => 409
  | .INSUFFICIENT_FUNDS => 402
  | .ROUND_IN_PROGRESS => 409
  | .IDEMPOTENCY_CONFLICT => 409
  | .RATE_LIMIT_EXCEEDED => 429
  | .MAINTENANCE => 503
  | .INTERNAL_ERROR => 500
  | .NOT_IMPLEMENTED => 501

def errorRecoverable : ErrorCode → Bool
  | .INSUFFICIENT_FUNDS => true
  | .ROUND_IN_PROGRESS => true
  | .RATE_LIMIT_EXCEEDED => true
  | .MAINTENANCE => true
  | .INTERNAL_ERROR => true
  | _ => false

structure GameError where
  code : ErrorCode
  message : String
deriving DecidableEq, Repr

/-! ## Settings used by the orchestrator (`config.py` defaults) -/

def allowed_bets : List ℚ := [0.10, 0.20, 0.50, 1.00, 2.00, 5.00, 10.00]
def enable_buy_feature : Bool := true
def enable_hype_mode_ante_bet : Bool := true
def buy_feature_cost_multiplier : ℤ := 100
def hype_mode_cost_increase : ℚ := 0.25
def hype_mode_bonus_chance_multiplier : ℚ := 2.0

/-! ## Protocol records (`protocol.py`) -/

structure SpinRequest where
  clientRequestId : String
  betAmount : ℚ
  mode : SpinMode := .NORMAL
  hypeMode : Bool := false
deriving DecidableEq, Repr

/-- The canonical idempotency payload `{betAmount, mode, hypeMode}`
(`main.py` lines 151-155). -/
structure Payload where
  betAmount : ℚ
  mode : SpinMode
  hypeMode : Bool
deriving DecidableEq, Repr

def payloadOf (r : SpinRequest) : Payload :=
  { betAmount := r.betAmount, mode := r.mode, hypeMode := r.hypeMode }

/-- The `POST /spin` success body (`protocol.SpinResponse`, flattened:
`context.currency` and the `outcome`/`nextState` sub-objects are inlined). -/
structure SpinResponse where
  protocolVersion : String := "1.0"
  roundId : String
  currency : String := "USD"
  totalWin : ℚ
  totalWinX : ℚ
  isCapped : Bool
  capReason : Option String
  events : List Event
  nextMode : GameMode
  spinsRemaining : ℤ
  heatLevel : ℤ
deriving DecidableEq, Repr

/-! ## Validators (`validators.py`) -/

def validateBet (r : SpinRequest) : Except GameError Unit :=
  if r.betAmount ∈ allowed_bets then .ok ()
  else .error ⟨.INVALID_BET, "Bet amount not allowed."⟩

def validateFeatures (r : SpinRequest) : Except GameError Unit :=
  if r.mode = SpinMode.BUY_FEATURE ∧ ¬enable_buy_feature then
    .error ⟨.FEATURE_DISABLED, "Buy Feature is disabled."⟩
  else if r.hypeMode ∧ ¬enable_hype_mode_ante_bet then
    .error ⟨.FEATURE_DISABLED, "Hype Mode is disabled."⟩
  else .ok ()

def validateSpinRequest (r : SpinRequest) : Except GameError Unit := do
  let _ ← validateBet r
  validateFeatures r

/-! ## State store (`redis_service.py`)

The Redis substrate is modeled as three partial maps.  The serialized
`{payload_hash, response}` value and the player-state dict written by
`main.py` become the records below.  TTLs are not modeled (no clock in the
embedding); none of the proved claims mentions expiry. -/

structure IdemRecord where
  payload_hash : String
  response : SpinResponse
deriving DecidableEq, Repr

/-- The player-state dict persisted by `main.py` lines 239-248. -/
structure StoredState where
  mode : GameMode
  free_spins_remaining : ℤ
  heat_level : ℤ
  bonus_is_bought : Bool
  bonus_continuation_count : ℤ
deriving DecidableEq, Repr

structure Store where
  idem : String → Option IdemRecord
  state : String → Option StoredState
  lock : String → Option String

/-- `RedisService.check_idempotency`: Miss is `ok none`, Hit is `ok (some r)`,
a stored record with a different payload hash raises IDEMPOTENCY_CONFLICT.
`hash` stands for the 16-hex SHA-256 prefix of the canonically serialized
payload (`_payload_hash`); the hashing itself is stdlib `hashlib`/`json`,
which the spec scopes out, so it is a parameter here. -/
def checkIdempotency (hash : Payload → String) (st : Store) (rid : String)
    (p : Payload) : Except GameError (Option SpinResponse) :=
  match st.idem rid with
  | none => .ok none
  | some rec =>
    if rec.payload_hash ≠ hash p then
      .error ⟨.IDEMPOTENCY_CONFLICT, "Same clientRequestId used with different payload."⟩
    else .ok (some rec.response)

/-- `RedisService.store_idempotency`: unconditional SETEX. -/
def storeIdempotency (hash : Payload → String) (st : Store) (rid : String)
    (p : Payload) (resp : SpinResponse) : Store :=
  { st with idem := fun k => if k = rid then some ⟨hash p, resp⟩ else st.idem k }

/-- `RedisService.acquire_player_lock`: SET NX with a fresh token. -/
def acquirePlayerLock (st : Store) (pid token : String) : Option String × Store :=
  match st.lock pid with
  | none =>
    (some token, { st with lock := fun k => if k = pid then some token else st.lock k })
  | some _ => (none, st)

/-- `RedisService.release_player_lock` via `RELEASE_LOCK_SCRIPT`: atomic
compare-and-delete; deletes iff the stored value equals the caller's token. -/
def releasePlayerLock (st : Store) (pid token : String) : Bool × Store :=
  if st.lock pid = some token then
    (true, { st with lock := fun k => if k = pid then none else st.lock k })
  else (false, st)

def savePlayerState (st : Store) (pid : String) (sd : StoredState) : Store :=
  { st with state := fun k => if k = pid then some sd else st.state k }

def clearPlayerState (st : Store) (pid : String) : Store :=
  { st with state := fun k => if k = pid then none else st.state k }

/-- `main.py` lines 183-188: only `mode`, `free_spins_remaining`,
`heat_level` and `bonus_is_bought` are restored; every other field keeps its
`GameState()` default. -/
def storedToGameState (sd : StoredState) : GameState :=
  { mode := sd.mode, free_spins_remaining := sd.free_spins_remaining,
    heat_level := sd.heat_level, bonus_is_bought := sd.bonus_is_bought }

/-! ## Telemetry (`telemetry.py`) -/

inductive TelemetryEvent
  | initServed (player_id : String) (restore_state_present : Bool)
      (restore_mode : String) (spins_remaining : Option ℤ)
  | spinProcessed (player_id client_request_id : String) (lock_acquire_ms : ℚ)
      (lock_wait_retries : ℤ) (is_bonus_continuation : Bool)
      (bonus_continuation_count : ℤ) (config_hash : String) (mode : String)
      (round_id : String) (bonus_variant : Option String)
  | spinRejected (player_id : String) (client_request_id : Option String)
      (reason : String) (lock_acquire_ms : ℚ) (lock_wait_retries : ℤ)
deriving DecidableEq, Repr

/-- A telemetry sink; `Except` models `emit` raising. -/
def TelemetrySink := TelemetryEvent → Except String Unit

/-- `TelemetryService._safe_emit`: the sink call is wrapped in try/except; a
failure increments the error counter (and is logged), nothing propagates.
`emit_init_served`, `emit_spin_processed`, `emit_spin_rejected` all delegate
to this wrapper. -/
def safeEmit (sink : TelemetrySink) (errs : ℕ) (ev : TelemetryEvent) : ℕ :=
  match sink ev with
  | .ok _ => errs
  | .error _ => errs + 1

/-- `main._get_telemetry_mode`. -/
def telemetryMode (r : SpinRequest) : String :=
  if r.mode = SpinMode.BUY_FEATURE then "buy"
  else if r.hypeMode then "hype"
  else "base"

/-- `main._extract_bonus_variant`: decided by the first `enterFreeSpins`. -/
def extractBonusVariant : List Event → Option String
  | [] => none
  | Event.enterFreeSpins _ reason bv :: _ =>
    some (if bv = "vip_buy" then "vip_buy"
          else if reason = "buy_feature" then "vip_buy" else "standard")
  | _ :: rest => extractBonusVariant rest

/-! ## The spin orchestrator (`main.spin`) -/

/-- Store operations, in the order the endpoint performs them; used to state
the write-ordering claim. -/
inductive StoreOp
  | idemGet (rid : String)
  | lockAcquire (pid : String)
  | stateGet (pid : String)
  | idemWrite (rid : String)
  | stateWrite (pid : String)
  | stateDelete (pid : String)
  | lockRelease (pid : String)
deriving DecidableEq, Repr

/-- Ambient inputs the endpoint consumes besides the request: the payload
hash function, the process config hash, the engine RNG, the fresh uuid4 lock
token and round id, and the measured lock timing. -/
structure SpinContext where
  hash : Payload → String
  cfgHash : String
  g : RNGStream
  c : RNGCtr := {}
  lockToken : String
  roundId : String
  lockAcquireMs : ℚ := 0

structure SpinOutput where
  result : Except GameError SpinResponse
  store : Store
  sinkErrors : ℕ
  trace : List StoreOp

/-- `main.py` lines 189-196: a spin is a bonus continuation when the loaded
state is FREE_SPINS with spins remaining. -/
def isBonusContinuation (sd? : Option StoredState) : Bool :=
  match sd? with
  | some sd => sd.mode = GameMode.FREE_SPINS ∧ sd.free_spins_remaining > 0
  | none => false

/-- `main.py` lines 180-196: the continuation counter stored with the state
(0 for a fresh spin, previous + 1 for a continuation). -/
def newBonusContinuationCount (sd? : Option StoredState) : ℤ :=
  match sd? with
  | some sd =>
    if sd.mode = GameMode.FREE_SPINS ∧ sd.free_spins_remaining > 0 then
      sd.bonus_continuation_count + 1
    else 0
  | none => 0

/-- `main.py` lines 206-223: the protocol response built from the engine
result and the freshly allocated round id. -/
def buildSpinResponse (roundId : String) (res : SpinResult) : SpinResponse :=
  { roundId := roundId, totalWin := res.total_win, totalWinX := res.total_win_x,
    isCapped := res.is_capped, capReason := res.cap_reason, events := res.events,
    nextMode := res.next_state.mode,
    spinsRemaining := res.next_state.free_spins_remaining,
    heatLevel := res.next_state.heat_level }

/-- `main.py` lines 239-248: the state dict persisted for an unfinished
bonus. -/
def persistedState (res : SpinResult) (contCount : ℤ) : StoredState :=
  { mode := res.next_state.mode,
    free_spins_remaining := res.next_state.free_spins_remaining,
    heat_level := res.next_state.heat_level,
    bonus_is_bought := res.next_state.bonus_is_bought,
    bonus_continuation_count := contCount }

/-- `POST /spin` (`main.py` lines 133-284): validation, fast-path idempotency
check, per-player lock, slow-path check, state load, engine call, idempotency
write, state write or delete, telemetry, token-safe release on every exit
path of the locked scope (the `finally` of `player_lock`). -/
def spinEndpoint (ctx : SpinContext) (sink : TelemetrySink) (playerId : String)
    (req : SpinRequest) (st : Store) (errs0 : ℕ) : SpinOutput :=
  match validateSpinRequest req with
  | .error e => ⟨.error e, st, errs0, []⟩
  | .ok _ =>
    let payload := payloadOf req
    match checkIdempotency ctx.hash st req.clientRequestId payload with
    | .error e => ⟨.error e, st, errs0, [.idemGet req.clientRequestId]⟩
    | .ok (some cached) => ⟨.ok cached, st, errs0, [.idemGet req.clientRequestId]⟩
    | .ok none =>
      match acquirePlayerLock st playerId ctx.lockToken with
      | (none, _) =>
        let errs1 := safeEmit sink errs0
          (.spinRejected playerId (some req.clientRequestId) "ROUND_IN_PROGRESS"
            ctx.lockAcquireMs 0)
        ⟨.error ⟨.ROUND_IN_PROGRESS, "Another spin is in progress for this player."⟩,
         st, errs1, [.idemGet req.clientRequestId, .lockAcquire playerId]⟩
      | (some _, st1) =>
        match checkIdempotency ctx.hash st1 req.clientRequestId payload with
        | .error e =>
          ⟨.error e, (releasePlayerLock st1 playerId ctx.lockToken).2, errs0,
           [.idemGet req.clientRequestId, .lockAcquire playerId,
            .idemGet req.clientRequestId, .lockRelease playerId]⟩
        | .ok (some cached) =>
          ⟨.ok cached, (releasePlayerLock st1 playerId ctx.lockToken).2, errs0,
           [.idemGet req.clientRequestId, .lockAcquire playerId,
            .idemGet req.clientRequestId, .lockRelease playerId]⟩
        | .ok none =>
          let sd? := st1.state playerId
          let state? := sd?.map storedToGameState
          let res := (spin ctx.g ctx.c req.betAmount req.mode req.hypeMode state?).1
          let response := buildSpinResponse ctx.roundId res
          let st2 := storeIdempotency ctx.hash st1 req.clientRequestId payload response
          let persist := res.next_state.mode = GameMode.FREE_SPINS ∧
            res.next_state.free_spins_remaining > 0
          let st3 :=
            if persist then
              savePlayerState st2 playerId (persistedState res (newBonusContinuationCount sd?))
            else clearPlayerState st2 playerId
          let stOp := if persist then StoreOp.stateWrite playerId
            else StoreOp.stateDelete playerId
          let errs1 := safeEmit sink errs0
            (.spinProcessed playerId req.clientRequestId ctx.lockAcquireMs 0
              (isBonusContinuation sd?) (newBonusContinuationCount sd?) ctx.cfgHash
              (telemetryMode req) ctx.roundId (extractBonusVariant res.events))
          let st4 := (releasePlayerLock st3 playerId ctx.lockToken).2
          ⟨.ok response, st4, errs1,
           [.idemGet req.clientRequestId, .lockAcquire playerId,
            .idemGet req.clientRequestId, .stateGet playerId,
            .idemWrite req.clientRequestId, stOp, .lockRelease playerId]⟩

/-! ## Audit simulator (`scripts/audit_sim.py`): the module never loads

`audit_sim.py` line 27 requests the names BASE_SCATTER_CHANCE, GameEngine
and MAX_WIN_TOTAL_X from the module `app.logic.engine`, but `engine.py`
binds no top-level name `BASE_SCATTER_CHANCE` — the scatter chance occurs
only as the dead local `base_scatter_chance` inside `GameEngine.spin`
(lines 328-331).  A Python `from`-import succeeds iff every requested name
is an attribute of the loaded module; otherwise it raises ImportError and
the requesting module never finishes loading, so neither `main()` nor
`generate_csv` can ever execute.  The name-level surface of the two modules
is embedded below. -/

/-- The names bound at top level of `app/logic/engine.py` — its attribute
surface after a successful load: the `from`-imports (lines 2-7), the
constants (lines 12-79) and the class (line 82). -/
def engineModuleNames : List String :=
  ["Any", "settings", "GameMode", "GameState", "SpinResult", "Symbol",
   "ProductionRNG", "RNGBase", "SeededRNG", "SpinMode",
   "MAX_WIN_TOTAL_X", "ENABLE_SPOTLIGHT_WILDS", "SPOTLIGHT_WILDS_FREQUENCY",
   "SPOTLIGHT_WILDS_MIN_POS", "SPOTLIGHT_WILDS_MAX_POS",
   "HYPE_MODE_COST_INCREASE", "HYPE_MODE_BONUS_CHANCE_MULTIPLIER",
   "FREE_SPINS_WIN_MULTIPLIER", "ENABLE_AFTERPARTY_METER",
   "AFTERPARTY_METER_MAX", "AFTERPARTY_RAGE_SPINS",
   "AFTERPARTY_RAGE_MULTIPLIER", "AFTERPARTY_METER_INC_ON_ANY_WIN",
   "AFTERPARTY_METER_INC_ON_WILD_PRESENT",
   "AFTERPARTY_METER_INC_ON_TWO_SCATTERS", "AFTERPARTY_RAGE_COOLDOWN_SPINS",
   "BOOST_TRIGGER_SMALLWINS", "EXPLOSIVE_TRIGGER_WIN_X", "BOOST_SPINS",
   "EXPLOSIVE_SPINS", "EVENT_MAX_RATE_PER_100_SPINS",
   "BOOST_MAX_RATE_PER_100_SPINS", "EXPLOSIVE_MAX_RATE_PER_100_SPINS",
   "WIN_TIER_BIG", "WIN_TIER_MEGA", "WIN_TIER_EPIC", "REELS", "ROWS",
   "PAYLINES", "SCATTER_PAYS", "GameEngine"]

/-- The names `audit_sim.py` line 27 requests from the engine module. -/
def auditSimEngineImports : List String :=
  ["BASE_SCATTER_CHANCE", "GameEngine", "MAX_WIN_TOTAL_X"]

/-- Name-level Python `from`-import semantics: the statement succeeds iff
every requested name is bound in the module. -/
def fromImportOk (moduleNames requested : List String) : Prop :=
  ∀ n ∈ requested, n ∈ moduleNames

instance (m r : List String) : Decidable (fromImportOk m r) := by
  unfold fromImportOk
  infer_instance


/-! ## State invariants (spec §3)

`ClaimedInvariants` transcribes the claim's invariant list verbatim
(including `rageActive ⇒ mode=BASE`); `StateInvariants` is the inductive
invariant the engine actually preserves: the rage-implies-BASE clause is
dropped (a meter-triggered rage and a scatter trigger can fire on the same
spin, leaving `rage_active ∧ mode=FREE_SPINS`), and `mode=FREE_SPINS ⇒
free_spins_remaining>0` is added (it is needed for the BASE clause to
survive the bonus-end decrement). -/

def ClaimedInvariants (s : GameState) : Prop :=
  (s.mode = GameMode.BASE →
    s.free_spins_remaining = 0 ∧ s.heat_level = 0 ∧ s.bonus_is_bought = false) ∧
  (s.rage_active = true → 0 < s.rage_spins_left ∧ s.mode = GameMode.BASE) ∧
  s.afterparty_meter ≤ AFTERPARTY_METER_MAX ∧
  0 ≤ s.free_spins_remaining ∧ 0 ≤ s.heat_level ∧ 0 ≤ s.afterparty_meter ∧
  0 ≤ s.rage_spins_left ∧ 0 ≤ s.deadspins_streak ∧ 0 ≤ s.smallwins_streak ∧
  0 ≤ s.spins_in_window ∧ 0 ≤ s.events_in_window ∧ 0 ≤ s.boost_in_window ∧
  0 ≤ s.rage_in_window ∧ 0 ≤ s.explosive_in_window ∧ 0 ≤ s.rage_cooldown_remaining

def StateInvariants (s : GameState) : Prop :=
  (s.mode = GameMode.BASE →
    s.free_spins_remaining = 0 ∧ s.heat_level = 0 ∧ s.bonus_is_bought = false) ∧
  (s.mode = GameMode.FREE_SPINS → 0 < s.free_spins_remaining) ∧
  (s.rage_active = true → 0 < s.rage_spins_left) ∧
  s.afterparty_meter ≤ AFTERPARTY_METER_MAX ∧
  0 ≤ s.free_spins_remaining ∧ 0 ≤ s.heat_level ∧ 0 ≤ s.afterparty_meter ∧
  0 ≤ s.rage_spins_left ∧ 0 ≤ s.deadspins_streak ∧ 0 ≤ s.smallwins_streak ∧
  0 ≤ s.spins_in_window ∧ 0 ≤ s.events_in_window ∧ 0 ≤ s.boost_in_window ∧
  0 ≤ s.rage_in_window ∧ 0 ≤ s.explosive_in_window ∧ 0 ≤ s.rage_cooldown_remaining

instance (s : GameState) : Decidable (ClaimedInvariants s) := by
  unfold ClaimedInvariants
  infer_instance

instance (s : GameState) : Decidable (StateInvariants s) := by
  unfold StateInvariants
  infer_instance

/-- RNG stream for the C8 counterexample: the first three cell rolls produce
SCATTER (0.01 < 0.02), every later roll is 0.5. -/
def gCexC8 : RNGStream := ⟨fun n => if n < 3 then 1/100 else 1/2, fun _ => 0⟩

/-- Input state for the C8 counterexample: a base-mode player whose
afterparty meter sits at 97. -/
def sCexC8 : GameState := { afterparty_meter := 97 }

/-! ## Event ordering (spec §3 / §8)

The spec's canonical order is (reveal, spotlightWilds, winLine,
afterpartyMeterUpdate, eventStart, eventEnd, enterFreeSpins, heatUpdate,
bonusEnd, winTier).  The engine emits a rage `eventEnd` (step 11) before the
boost/explosive `eventStart`s (step 12), so the order it actually respects
swaps the two: `eventOrderIdx` below assigns eventEnd 4 and eventStart 5. -/

def eventOrderIdx : Event → ℕ
  | .reveal _ => 0
  | .spotlightWilds _ _ => 1
  | .winLine _ _ _ => 2
  | .afterpartyMeterUpdate _ _ => 3
  | .eventEnd _ => 4
  | .eventStart _ _ _ _ => 5
  | .enterFreeSpins _ _ _ => 6
  | .heatUpdate _ => 7
  | .bonusEnd _ _ _ _ => 8
  | .winTier _ _ => 9

def isWinTierB : Event → Bool
  | .winTier _ _ => true
  | _ => false

/-! # Helper lemmas -/

/-- The outcome fields of `spin` are the cap-enforcement output applied to the
base win, the entry-state win multiplier and the entry-state mode. -/
theorem spin_outcome_decomp (g : RNGStream) (c : RNGCtr) (bet : ℚ) (mode : SpinMode)
    (hype : Bool) (s? : Option GameState) :
    ∃ B,
      (spin g c bet mode hype s?).1.base_win = B ∧
      (spin g c bet mode hype s?).1.total_win_x =
        (capOutcome (effEntryState mode (s?.getD {})).mode bet B
          (spinMultiplier (effEntryState mode (s?.getD {})))).total_win_x ∧
      (spin g c bet mode hype s?).1.total_win =
        (capOutcome (effEntryState mode (s?.getD {})).mode bet B
          (spinMultiplier (effEntryState mode (s?.getD {})))).total_win ∧
      (spin g c bet mode hype s?).1.is_capped =
        (capOutcome (effEntryState mode (s?.getD {})).mode bet B
          (spinMultiplier (effEntryState mode (s?.getD {})))).is_capped ∧
      (spin g c bet mode hype s?).1.cap_reason =
        (capOutcome (effEntryState mode (s?.getD {})).mode bet B
          (spinMultiplier (effEntryState mode (s?.getD {})))).cap_reason :=
  ⟨_, rfl, rfl, rfl, rfl, rfl⟩

/-- The next state of `spin` is the state pipeline `spinSteps` run from the
entry state, at some total win / winX / wild / scatter values. -/
theorem spin_next_decomp (g : RNGStream) (c : RNGCtr) (bet : ℚ) (mode : SpinMode)
    (hype : Bool) (s? : Option GameState) :
    ∃ tw twx w sc,
      (spin g c bet mode hype s?).1.next_state =
        (spinSteps (buyP mode s?) (s?.getD {}) (effEntryState mode (s?.getD {}))
          tw twx w sc).1 :=
  ⟨_, _, _, _, rfl⟩

/-- The events of `spin` are the buy-entry events, the reveal, the optional
spotlight event, the win-line events, the pipeline segments, and the tier
event, in that order. -/
theorem spin_events_decomp (g : RNGStream) (c : RNGCtr) (bet : ℚ) (mode : SpinMode)
    (hype : Bool) (s? : Option GameState) :
    ∃ (grid : List (List ℕ)) (positions : List ℕ) (tw twx : ℚ) (w sc : ℕ),
      (spin g c bet mode hype s?).1.events =
        (if buyP mode s? then buyEvents else []) ++ [Event.reveal grid] ++
        spotEvents positions ++ (calculateWin grid bet).2 ++
        (spinSteps (buyP mode s?) (s?.getD {}) (effEntryState mode (s?.getD {})) tw twx w sc).2.1 ++
        (spinSteps (buyP mode s?) (s?.getD {}) (effEntryState mode (s?.getD {})) tw twx w sc).2.2.1 ++
        (spinSteps (buyP mode s?) (s?.getD {}) (effEntryState mode (s?.getD {})) tw twx w sc).2.2.2.1 ++
        (spinSteps (buyP mode s?) (s?.getD {}) (effEntryState mode (s?.getD {})) tw twx w sc).2.2.2.2.1 ++
        (spinSteps (buyP mode s?) (s?.getD {}) (effEntryState mode (s?.getD {})) tw twx w sc).2.2.2.2.2 ++
        tierEvents twx ∧
      (spin g c bet mode hype s?).1.grid = grid :=
  ⟨_, _, _, _, _, _, rfl, rfl⟩

/-! Per-step field-preservation and skip lemmas. -/

theorem stepMeter_mode (rd n : GameState) (tw : ℚ) (w sc : ℕ) :
    (stepMeter rd n tw w sc).1.mode = n.mode := by
  simp only [stepMeter]; split_ifs <;> rfl

theorem stepMeter_free (rd n : GameState) (tw : ℚ) (w sc : ℕ) :
    (stepMeter rd n tw w sc).1.free_spins_remaining = n.free_spins_remaining := by
  simp only [stepMeter]; split_ifs <;> rfl

theorem stepMeter_heat (rd n : GameState) (tw : ℚ) (w sc : ℕ) :
    (stepMeter rd n tw w sc).1.heat_level = n.heat_level := by
  simp only [stepMeter]; split_ifs <;> rfl

theorem stepMeter_bought (rd n : GameState) (tw : ℚ) (w sc : ℕ) :
    (stepMeter rd n tw w sc).1.bonus_is_bought = n.bonus_is_bought := by
  simp only [stepMeter]; split_ifs <;> rfl

theorem stepStreaks_mode (rd n : GameState) (twx : ℚ) :
    (stepStreaks rd n twx).mode = n.mode := by
  simp only [stepStreaks]; split_ifs <;> rfl

theorem stepStreaks_free (rd n : GameState) (twx : ℚ) :
    (stepStreaks rd n twx).free_spins_remaining = n.free_spins_remaining := by
  simp only [stepStreaks]; split_ifs <;> rfl

theorem stepStreaks_heat (rd n : GameState) (twx : ℚ) :
    (stepStreaks rd n twx).heat_level = n.heat_level := by
  simp only [stepStreaks]; split_ifs <;> rfl

theorem stepStreaks_bought (rd n : GameState) (twx : ℚ) :
    (stepStreaks rd n twx).bonus_is_bought = n.bonus_is_bought := by
  simp only [stepStreaks]; split_ifs <;> rfl

theorem stepCooldown_mode (rd n : GameState) :
    (stepCooldown rd n).mode = n.mode := by
  simp only [stepCooldown]; split_ifs <;> rfl

theorem stepCooldown_free (rd n : GameState) :
    (stepCooldown rd n).free_spins_remaining = n.free_spins_remaining := by
  simp only [stepCooldown]; split_ifs <;> rfl

theorem stepCooldown_heat (rd n : GameState) :
    (stepCooldown rd n).heat_level = n.heat_level := by
  simp only [stepCooldown]; split_ifs <;> rfl

theorem stepCooldown_bought (rd n : GameState) :
    (stepCooldown rd n).bonus_is_bought = n.bonus_is_bought := by
  simp only [stepCooldown]; split_ifs <;> rfl

theorem stepRage_mode (rd n : GameState) :
    (stepRage rd n).1.mode = n.mode := by
  simp only [stepRage]; split_ifs <;> rfl

theorem stepRage_free (rd n : GameState) :
    (stepRage rd n).1.free_spins_remaining = n.free_spins_remaining := by
  simp only [stepRage]; split_ifs <;> rfl

theorem stepRage_heat (rd n : GameState) :
    (stepRage rd n).1.heat_level = n.heat_level := by
  simp only [stepRage]; split_ifs <;> rfl

theorem stepRage_bought (rd n : GameState) :
    (stepRage rd n).1.bonus_is_bought = n.bonus_is_bought := by
  simp only [stepRage]; split_ifs <;> rfl

theorem stepWindow_mode (rd n : GameState) (twx : ℚ) :
    (stepWindow rd n twx).1.mode = n.mode := by
  simp only [stepWindow]; split_ifs <;> rfl

theorem stepWindow_free (rd n : GameState) (twx : ℚ) :
    (stepWindow rd n twx).1.free_spins_remaining = n.free_spins_remaining := by
  simp only [stepWindow]; split_ifs <;> rfl

theorem stepWindow_heat (rd n : GameState) (twx : ℚ) :
    (stepWindow rd n twx).1.heat_level = n.heat_level := by
  simp only [stepWindow]; split_ifs <;> rfl

theorem stepWindow_bought (rd n : GameState) (twx : ℚ) :
    (stepWindow rd n twx).1.bonus_is_bought = n.bonus_is_bought := by
  simp only [stepWindow]; split_ifs <;> rfl

theorem stepScatter_skip (rd n : GameState) (sc : ℕ)
    (h : rd.mode ≠ GameMode.BASE) : stepScatterTrigger rd n sc = (n, []) := by
  unfold stepScatterTrigger
  rw [if_neg]
  rintro ⟨-, hm⟩
  exact h hm

theorem stepFreeSpins_skip (rd n : GameState) (tw twx : ℚ)
    (h : rd.mode ≠ GameMode.FREE_SPINS) : stepFreeSpins rd n tw twx = (n, []) := by
  unfold stepFreeSpins
  rw [if_neg h]

theorem stepMeter_skip (rd n : GameState) (tw : ℚ) (w sc : ℕ)
    (h : rd.mode ≠ GameMode.BASE) : stepMeter rd n tw w sc = (n, []) := by
  unfold stepMeter
  rw [if_neg]
  rintro ⟨-, hm, -⟩
  exact h hm

theorem stepStreaks_skip (rd n : GameState) (twx : ℚ)
    (h : rd.mode ≠ GameMode.BASE) : stepStreaks rd n twx = n := by
  unfold stepStreaks
  rw [if_neg h]

theorem stepRage_skip (rd n : GameState) (h : ¬rd.rage_active) :
    stepRage rd n = (n, []) := by
  unfold stepRage
  rw [if_neg h]

/-- The free-spins step when the bonus continues: the spin counter decrements
and mode / bought are untouched. -/
theorem stepFreeSpins_cont (rd n : GameState) (tw twx : ℚ)
    (hm : rd.mode = GameMode.FREE_SPINS)
    (hf : ¬rd.free_spins_remaining - 1 ≤ 0) :
    (stepFreeSpins rd n tw twx).1.mode = n.mode ∧
    (stepFreeSpins rd n tw twx).1.free_spins_remaining = rd.free_spins_remaining - 1 ∧
    (stepFreeSpins rd n tw twx).1.bonus_is_bought = n.bonus_is_bought := by
  simp only [stepFreeSpins]
  rw [if_pos hm]
  split_ifs <;> simp_all

/-! # Claim theorems -/

/-- Concrete RNG stream: every `random()` call returns 1/2, every `randint`
input is 0.  The grid is all MID1, no spotlight, no scatters. -/
def constHalfStream : RNGStream := ⟨fun _ => 1/2, fun _ => 0⟩

/-- In the cap branch the outcome fields are as claimed. -/
theorem capOutcome_spec (effMode : GameMode) (bet B M : ℚ) (hbet : 0 < bet) :
    (capOutcome effMode bet B M).total_win_x ≤ MAX_WIN_TOTAL_X ∧
    ((capOutcome effMode bet B M).is_capped = true ↔ MAX_WIN_TOTAL_X < B * M / bet) ∧
    ((capOutcome effMode bet B M).is_capped = true →
      (capOutcome effMode bet B M).cap_reason =
        some (if effMode = GameMode.BASE then "max_win_base" else "max_win_bonus") ∧
      (capOutcome effMode bet B M).total_win_x = MAX_WIN_TOTAL_X ∧
      (capOutcome effMode bet B M).total_win = MAX_WIN_TOTAL_X * bet) := by
  simp only [capOutcome]
  rw [if_pos (show bet > 0 from hbet)]
  by_cases hc : B * M / bet > MAX_WIN_TOTAL_X
  · rw [if_pos hc]
    exact ⟨le_refl _, ⟨fun _ => hc, fun _ => rfl⟩, fun _ => ⟨rfl, rfl, rfl⟩⟩
  · rw [if_neg hc]
    refine ⟨le_of_not_lt hc, ⟨fun h => absurd h (by simp), fun h => absurd h hc⟩, ?_⟩
    intro h
    exact absurd h (by simp)

/-- C1.  For every engine spin invocation with a positive base bet, the
returned `totalWinX` never exceeds `MAX_WIN_TOTAL_X`; `isCapped` holds exactly
when the unclamped `totalWin / baseBet` (that is, `baseWin × multiplier /
bet`) exceeds the cap; and in that case `capReason` is `"max_win_base"` when
the spin's (post-entry) mode is BASE and `"max_win_bonus"` otherwise, while
`totalWinX` is clamped to the cap and `totalWin` recomputed as
`totalWinX × baseBet`. -/
theorem spin_cap_enforced (g : RNGStream) (c : RNGCtr) (bet : ℚ) (mode : SpinMode)
    (hype : Bool) (s? : Option GameState) (hbet : 0 < bet) :
    (spin g c bet mode hype s?).1.total_win_x ≤ MAX_WIN_TOTAL_X ∧
    ((spin g c bet mode hype s?).1.is_capped = true ↔
      MAX_WIN_TOTAL_X <
        (spin g c bet mode hype s?).1.base_win *
          spinMultiplier (effEntryState mode (s?.getD {})) / bet) ∧
    ((spin g c bet mode hype s?).1.is_capped = true →
      (spin g c bet mode hype s?).1.cap_reason =
        some (if (effEntryState mode (s?.getD {})).mode = GameMode.BASE
              then "max_win_base" else "max_win_bonus") ∧
      (spin g c bet mode hype s?).1.total_win_x = MAX_WIN_TOTAL_X ∧
      (spin g c bet mode hype s?).1.total_win = MAX_WIN_TOTAL_X * bet) := by
  obtain ⟨B, hB, h1, h2, h3, h4⟩ := spin_outcome_decomp g c bet mode hype s?
  rw [hB, h1, h2, h3, h4]
  exact capOutcome_spec _ bet B _ hbet

/-- Witness for C1 at a concrete input. -/
theorem spin_cap_enforced_witness :
    (0 : ℚ) < 1 ∧
    (spin constHalfStream {} 1 SpinMode.NORMAL false none).1.total_win_x ≤
      MAX_WIN_TOTAL_X :=
  ⟨by norm_num,
   (spin_cap_enforced constHalfStream {} 1 SpinMode.NORMAL false none (by norm_num)).1⟩

/-- C6 (code bug).  The engine result does not depend on the hype flag at
all: the flag only feeds two dead local computations (`effective_cost` and
`base_scatter_chance`), and `_generate_grid` samples from fixed thresholds.
In particular the per-cell SCATTER probability is *not* multiplied by
`hypeModeBonusChanceMultiplier`: a cell draw of 0.03 under hype yields WILD
(0.02 ≤ 0.03 < 0.07) where the documented distribution (scatter threshold
0.02 × 2 = 0.04) would yield SCATTER. -/
theorem spin_independent_of_hype (g : RNGStream) (c : RNGCtr) (bet : ℚ)
    (mode : SpinMode) (s? : Option GameState) :
    spin g c bet mode true s? = spin g c bet mode false s? := rfl

/-- In the aliased (buy-entry) pipeline, starting from the buy-entry state
(mode FREE_SPINS, 10 spins, bought), the state pipeline only consumes one
free spin: meter/streak/window/scatter blocks are skipped because the aliased
read state is in FREE_SPINS, and the free-spins step decrements 10 to 9. -/
theorem spinSteps_buy (buy : Prop) [Decidable buy] (hb : buy) (s0 n0 : GameState)
    (tw twx : ℚ) (w sc : ℕ) (hm : n0.mode = GameMode.FREE_SPINS)
    (hf : n0.free_spins_remaining = 10) (hbt : n0.bonus_is_bought = true) :
    (spinSteps buy s0 n0 tw twx w sc).1.mode = GameMode.FREE_SPINS ∧
    (spinSteps buy s0 n0 tw twx w sc).1.free_spins_remaining = 9 ∧
    (spinSteps buy s0 n0 tw twx w sc).1.bonus_is_bought = true := by
  simp only [spinSteps, if_pos hb]
  set a := (stepMeter n0 n0 tw w sc).1 with ha
  set b := stepStreaks a a twx with hbdef
  set d := stepCooldown b b with hd
  set e := (stepRage d d).1 with he
  set f := (stepWindow e e twx).1 with hfdef
  have ham : a.mode = GameMode.FREE_SPINS := (stepMeter_mode _ _ _ _ _).trans hm
  have haf : a.free_spins_remaining = 10 := (stepMeter_free _ _ _ _ _).trans hf
  have hab : a.bonus_is_bought = true := (stepMeter_bought _ _ _ _ _).trans hbt
  have hbm : b.mode = GameMode.FREE_SPINS := (stepStreaks_mode _ _ _).trans ham
  have hbf : b.free_spins_remaining = 10 := (stepStreaks_free _ _ _).trans haf
  have hbb : b.bonus_is_bought = true := (stepStreaks_bought _ _ _).trans hab
  have hdm : d.mode = GameMode.FREE_SPINS := (stepCooldown_mode _ _).trans hbm
  have hdf : d.free_spins_remaining = 10 := (stepCooldown_free _ _).trans hbf
  have hdb : d.bonus_is_bought = true := (stepCooldown_bought _ _).trans hbb
  have hem : e.mode = GameMode.FREE_SPINS := (stepRage_mode _ _).trans hdm
  have hef : e.free_spins_remaining = 10 := (stepRage_free _ _).trans hdf
  have heb : e.bonus_is_bought = true := (stepRage_bought _ _).trans hdb
  have hfm : f.mode = GameMode.FREE_SPINS := (stepWindow_mode _ _ _).trans hem
  have hff : f.free_spins_remaining = 10 := (stepWindow_free _ _ _).trans hef
  have hfb : f.bonus_is_bought = true := (stepWindow_bought _ _ _).trans heb
  have hsc : stepScatterTrigger f f sc = (f, []) :=
    stepScatter_skip f f sc (by rw [hfm]; exact fun h => nomatch h)
  rw [hsc]
  have hcont := stepFreeSpins_cont f f tw twx hfm (by rw [hff]; norm_num)
  refine ⟨hcont.1.trans hfm, ?_, hcont.2.2.trans hfb⟩
  rw [hcont.2.1, hff]
  norm_num

/-- C5 (corrected): the counterexample.  A BUY_FEATURE spin from a fresh
BASE state leaves `nextState.spinsRemaining = 9`, not 10: the buy branch
aliases the Python local `state` to the accumulating next state, so the
free-spins progression step sees mode FREE_SPINS and decrements the fresh
10-spin budget on the buy spin itself. -/
theorem buy_feature_spins_remaining_counterexample :
    (spin constHalfStream {} 1 SpinMode.BUY_FEATURE false none).1.next_state.free_spins_remaining = 9 ∧
    (spin constHalfStream {} 1 SpinMode.BUY_FEATURE false none).1.next_state.free_spins_remaining ≠ 10 := by
  have h9 : (spin constHalfStream {} 1 SpinMode.BUY_FEATURE false none).1.next_state.free_spins_remaining = 9 := by
    with_unfolding_all decide
  exact ⟨h9, by rw [h9]; decide⟩

/-- C5 (amended).  For every BUY_FEATURE spin issued while the player's mode
is BASE (and any bet, hype flag and RNG stream), the engine enters
FREE_SPINS with a 10-spin budget and `bonusIsBought = true`, the first two
emitted events are `enterFreeSpins{count: 10, reason: "buy_feature",
bonusVariant: "vip_buy"}` immediately followed by `heatUpdate{level: 1}`, and
the returned next state has mode FREE_SPINS, `bonusIsBought = true` and
`spinsRemaining = 9` — the bought spin itself consumes the first of the 10
free spins. -/
theorem buy_feature_entry_amended (g : RNGStream) (c : RNGCtr) (bet : ℚ)
    (hype : Bool) (s : GameState) (hmode : s.mode = GameMode.BASE) :
    (spin g c bet SpinMode.BUY_FEATURE hype (some s)).1.events.take 2 =
      [Event.enterFreeSpins 10 "buy_feature" "vip_buy", Event.heatUpdate 1] ∧
    (spin g c bet SpinMode.BUY_FEATURE hype (some s)).1.next_state.mode = GameMode.FREE_SPINS ∧
    (spin g c bet SpinMode.BUY_FEATURE hype (some s)).1.next_state.free_spins_remaining = 9 ∧
    (spin g c bet SpinMode.BUY_FEATURE hype (some s)).1.next_state.bonus_is_bought = true := by
  have hbuy : buyP SpinMode.BUY_FEATURE (some s) := ⟨rfl, hmode⟩
  constructor
  · obtain ⟨grid, pos, tw, twx, w, sc, hev, -⟩ :=
      spin_events_decomp g c bet SpinMode.BUY_FEATURE hype (some s)
    rw [hev, if_pos hbuy]
    rfl
  · obtain ⟨tw, twx, w, sc, hns⟩ := spin_next_decomp g c bet SpinMode.BUY_FEATURE hype (some s)
    rw [hns]
    simp only [Option.getD_some]
    have h0 : effEntryState SpinMode.BUY_FEATURE s = buyEntryState s := by
      unfold effEntryState
      rw [if_pos (⟨rfl, hmode⟩ : SpinMode.BUY_FEATURE = SpinMode.BUY_FEATURE ∧ s.mode = GameMode.BASE)]
    rw [h0]
    exact spinSteps_buy _ hbuy _ _ tw twx w sc rfl rfl rfl

/-- Witness for the amended C5 at a concrete input. -/
theorem buy_feature_entry_amended_witness :
    ({} : GameState).mode = GameMode.BASE ∧
    (spin constHalfStream {} 1 SpinMode.BUY_FEATURE false (some {})).1.next_state.free_spins_remaining = 9 :=
  ⟨rfl, (buy_feature_entry_amended constHalfStream {} 1 false {} rfl).2.2.1⟩

/-- C9 (code bug).  The audit simulator cannot run at all: `audit_sim.py`
line 27 requests `BASE_SCATTER_CHANCE` from the engine module, which binds
no such top-level name, so loading the script raises ImportError before
`main()` or `generate_csv` ever execute — repeated runs produce no CSV,
byte-identical or otherwise.  (Separately, `generate_csv` writes the ambient
wall clock and git commit into the first two columns, so even a repaired
simulator would not emit byte-identical files across runs.) -/
theorem audit_sim_import_error :
    "BASE_SCATTER_CHANCE" ∈ auditSimEngineImports ∧
    "BASE_SCATTER_CHANCE" ∉ engineModuleNames ∧
    ¬fromImportOk engineModuleNames auditSimEngineImports := by
  refine ⟨by decide, by decide, ?_⟩
  intro h
  exact absurd (h "BASE_SCATTER_CHANCE" (by decide)) (by decide)


/-! Store helper lemmas. -/

theorem storeIdempotency_lock (h : Payload → String) (st : Store) (rid : String)
    (p : Payload) (resp : SpinResponse) :
    (storeIdempotency h st rid p resp).lock = st.lock := rfl

theorem savePlayerState_lock (st : Store) (pid : String) (sd : StoredState) :
    (savePlayerState st pid sd).lock = st.lock := rfl

theorem clearPlayerState_lock (st : Store) (pid : String) :
    (clearPlayerState st pid).lock = st.lock := rfl

theorem acquirePlayerLock_free (st : Store) (pid tok : String)
    (h : st.lock pid = none) :
    acquirePlayerLock st pid tok =
      (some tok, { st with lock := fun k => if k = pid then some tok else st.lock k }) := by
  unfold acquirePlayerLock
  rw [h]

theorem acquirePlayerLock_held (st : Store) (pid tok tok' : String)
    (h : st.lock pid = some tok') :
    acquirePlayerLock st pid tok = (none, st) := by
  unfold acquirePlayerLock
  rw [h]

theorem releasePlayerLock_match (st : Store) (pid tok : String)
    (h : st.lock pid = some tok) :
    (releasePlayerLock st pid tok).2.lock pid = none := by
  unfold releasePlayerLock
  rw [if_pos h]
  simp

/-! Engine lemma: a next state in FREE_SPINS always carries a positive
spin count. -/

theorem stepFreeSpins_end_or_pos (rd n : GameState) (tw twx : ℚ)
    (h : rd.mode = GameMode.FREE_SPINS) :
    (stepFreeSpins rd n tw twx).1.mode = GameMode.BASE ∨
    0 < (stepFreeSpins rd n tw twx).1.free_spins_remaining := by
  simp only [stepFreeSpins]
  rw [if_pos h]
  split_ifs <;>
    first
      | exact Or.inl rfl
      | · right
          dsimp only at *
          omega

theorem stepScatter_skipG (rd n : GameState) (sc : ℕ)
    (h : ¬(sc ≥ 3 ∧ rd.mode = GameMode.BASE)) :
    stepScatterTrigger rd n sc = (n, []) := by
  simp only [stepScatterTrigger]
  rw [if_neg h]

theorem stepScatter_fires_pos (rd n : GameState) (sc : ℕ)
    (h : sc ≥ 3 ∧ rd.mode = GameMode.BASE) :
    (stepScatterTrigger rd n sc).1.mode = GameMode.FREE_SPINS ∧
    0 < (stepScatterTrigger rd n sc).1.free_spins_remaining := by
  simp only [stepScatterTrigger]
  rw [if_pos h]
  refine ⟨rfl, ?_⟩
  have h3 : (3 : ℤ) ≤ (sc : ℤ) := by exact_mod_cast h.1
  show (0 : ℤ) < 10 + ((sc : ℤ) - 3) * 2
  omega

theorem fsTail_pos (buy : Prop) [Decidable buy] (s0 n5 : GameState)
    (tw twx : ℚ) (sc : ℕ) (hlink : ¬buy → n5.mode = s0.mode) :
    (stepFreeSpins
        (if buy then (stepScatterTrigger (if buy then n5 else s0) n5 sc).1 else s0)
        (stepScatterTrigger (if buy then n5 else s0) n5 sc).1 tw twx).1.mode =
      GameMode.FREE_SPINS →
    0 < (stepFreeSpins
        (if buy then (stepScatterTrigger (if buy then n5 else s0) n5 sc).1 else s0)
        (stepScatterTrigger (if buy then n5 else s0) n5 sc).1 tw twx).1.free_spins_remaining := by
  by_cases hb : buy
  · simp only [if_pos hb]
    set n6 := (stepScatterTrigger n5 n5 sc).1 with hn6
    by_cases h6 : n6.mode = GameMode.FREE_SPINS
    · rcases stepFreeSpins_end_or_pos n6 n6 tw twx h6 with hL | hR
      · intro hm
        rw [hL] at hm
        exact absurd hm (by simp)
      · intro _
        exact hR
    · rw [stepFreeSpins_skip n6 n6 tw twx h6]
      intro hm
      exact absurd hm h6
  · have h5 : n5.mode = s0.mode := hlink hb
    simp only [if_neg hb]
    by_cases hs : s0.mode = GameMode.FREE_SPINS
    · rcases stepFreeSpins_end_or_pos s0 (stepScatterTrigger s0 n5 sc).1 tw twx hs with hL | hR
      · intro hm
        rw [hL] at hm
        exact absurd hm (by simp)
      · intro _
        exact hR
    · rw [stepFreeSpins_skip s0 (stepScatterTrigger s0 n5 sc).1 tw twx hs]
      by_cases hsc : sc ≥ 3 ∧ s0.mode = GameMode.BASE
      · obtain ⟨-, hp⟩ := stepScatter_fires_pos s0 n5 sc hsc
        intro _
        exact hp
      · rw [stepScatter_skipG s0 n5 sc hsc]
        intro hm
        rw [h5] at hm
        exact absurd hm hs

theorem spinSteps_fs_pos (buy : Prop) [Decidable buy] (s0 n0 : GameState)
    (tw twx : ℚ) (w sc : ℕ) (hnb : ¬buy → n0 = s0) :
    (spinSteps buy s0 n0 tw twx w sc).1.mode = GameMode.FREE_SPINS →
    0 < (spinSteps buy s0 n0 tw twx w sc).1.free_spins_remaining := by
  simp only [spinSteps]
  apply fsTail_pos
  intro hb
  have h0 : n0 = s0 := hnb hb
  simp only [if_neg hb]
  rw [stepWindow_mode, stepRage_mode, stepCooldown_mode, stepStreaks_mode,
    stepMeter_mode, h0]

theorem spin_next_fs_pos (g : RNGStream) (c : RNGCtr) (bet : ℚ) (mode : SpinMode)
    (hype : Bool) (s? : Option GameState) :
    (spin g c bet mode hype s?).1.next_state.mode = GameMode.FREE_SPINS →
    0 < (spin g c bet mode hype s?).1.next_state.free_spins_remaining := by
  obtain ⟨tw, twx, w, sc, hns⟩ := spin_next_decomp g c bet mode hype s?
  rw [hns]
  apply spinSteps_fs_pos
  intro hnb
  unfold effEntryState
  rw [if_neg]
  exact hnb

/-! Idempotency characterization lemmas. -/

theorem checkIdempotency_miss (hsh : Payload → String) (st : Store) (rid : String)
    (p : Payload) (h : st.idem rid = none) :
    checkIdempotency hsh st rid p = .ok none := by
  unfold checkIdempotency
  rw [h]

theorem checkIdempotency_hit_inv (hsh : Payload → String) (st : Store) (rid : String)
    (p : Payload) (r : SpinResponse)
    (h : checkIdempotency hsh st rid p = .ok (some r)) :
    st.idem rid = some ⟨hsh p, r⟩ := by
  unfold checkIdempotency at h
  cases hrec : st.idem rid with
  | none =>
    rw [hrec] at h
    exact absurd h (by simp)
  | some rec =>
    rw [hrec] at h
    dsimp only at h
    by_cases hne : rec.payload_hash ≠ hsh p
    · rw [if_pos hne] at h
      exact absurd h (by simp)
    · rw [if_neg hne] at h
      simp only [Except.ok.injEq, Option.some.injEq] at h
      simp only [not_not] at hne
      cases rec
      simp_all

theorem storeIdempotency_at (hsh : Payload → String) (st : Store) (rid : String)
    (p : Payload) (r : SpinResponse) :
    (storeIdempotency hsh st rid p r).idem rid = some ⟨hsh p, r⟩ := by
  unfold storeIdempotency
  simp

theorem releasePlayerLock_fields (st : Store) (pid tok : String) :
    (releasePlayerLock st pid tok).2.idem = st.idem ∧
    (releasePlayerLock st pid tok).2.state = st.state := by
  unfold releasePlayerLock
  split <;> exact ⟨rfl, rfl⟩

theorem savePlayerState_idem (st : Store) (pid : String) (sd : StoredState) :
    (savePlayerState st pid sd).idem = st.idem := rfl

theorem clearPlayerState_idem (st : Store) (pid : String) :
    (clearPlayerState st pid).idem = st.idem := rfl

theorem storeIdempotency_state (hsh : Payload → String) (st : Store) (rid : String)
    (p : Payload) (r : SpinResponse) :
    (storeIdempotency hsh st rid p r).state = st.state := rfl

/-- A successful `/spin` always leaves the idempotency record for the request
id holding the returned response, keyed by the payload hash. -/
theorem spinEndpoint_success_idem (ctx : SpinContext) (sink : TelemetrySink)
    (pid : String) (req : SpinRequest) (st : Store) (errs : ℕ)
    (resp : SpinResponse)
    (h : (spinEndpoint ctx sink pid req st errs).result = .ok resp) :
    (spinEndpoint ctx sink pid req st errs).store.idem req.clientRequestId =
      some ⟨ctx.hash (payloadOf req), resp⟩ := by
  revert h
  simp only [spinEndpoint]
  split
  · intro h
    exact absurd h (by simp)
  · split
    · intro h
      exact absurd h (by simp)
    · rename_i cached heq
      intro h
      simp only [Except.ok.injEq] at h
      subst h
      exact checkIdempotency_hit_inv _ _ _ _ _ heq
    · split
      · intro h
        exact absurd h (by simp)
      · rename_i st1pair val st1 hacq
        split
        · intro h
          exact absurd h (by simp)
        · rename_i cached heq
          intro h
          simp only [Except.ok.injEq] at h
          subst h
          have h1 := checkIdempotency_hit_inv _ _ _ _ _ heq
          have h2 := (releasePlayerLock_fields st1 pid ctx.lockToken).1
          rw [h2]
          exact h1
        · intro h
          simp only [Except.ok.injEq] at h
          subst h
          rw [(releasePlayerLock_fields _ pid ctx.lockToken).1]
          split
          · rw [savePlayerState_idem]
            exact storeIdempotency_at _ _ _ _ _
          · rw [clearPlayerState_idem]
            exact storeIdempotency_at _ _ _ _ _

/-- A successful `/spin` passed validation. -/
theorem spinEndpoint_success_valid (ctx : SpinContext) (sink : TelemetrySink)
    (pid : String) (req : SpinRequest) (st : Store) (errs : ℕ)
    (resp : SpinResponse)
    (h : (spinEndpoint ctx sink pid req st errs).result = .ok resp) :
    validateSpinRequest req = .ok () := by
  revert h
  simp only [spinEndpoint]
  split
  · intro h
    exact absurd h (by simp)
  · rename_i a hval
    intro _
    rw [hval]

/-- C2.  `checkIdempotency` returns the cached response exactly when a record
exists with the matching payload hash, `none` when no record exists, and
fails with IDEMPOTENCY_CONFLICT exactly when a record exists whose stored
hash differs; consequently a second `/spin` with the same `clientRequestId`
and payload (under the same hash function, with any fresh round id, lock
token, RNG or sink) returns the identical cached response — the same
`roundId` included — performs a single idempotency read and leaves the store,
player state included, untouched. -/
theorem idempotency_contract :
    (∀ (hsh : Payload → String) (st : Store) (rid : String) (p : Payload),
      st.idem rid = none → checkIdempotency hsh st rid p = .ok none) ∧
    (∀ (hsh : Payload → String) (st : Store) (rid : String) (p : Payload)
      (rec : IdemRecord), st.idem rid = some rec → rec.payload_hash = hsh p →
      checkIdempotency hsh st rid p = .ok (some rec.response)) ∧
    (∀ (hsh : Payload → String) (st : Store) (rid : String) (p : Payload)
      (rec : IdemRecord), st.idem rid = some rec → rec.payload_hash ≠ hsh p →
      checkIdempotency hsh st rid p =
        .error ⟨.IDEMPOTENCY_CONFLICT, "Same clientRequestId used with different payload."⟩) ∧
    (∀ (ctx ctx2 : SpinContext) (sink sink2 : TelemetrySink) (pid : String)
      (req : SpinRequest) (st : Store) (e1 e2 : ℕ) (resp : SpinResponse),
      ctx2.hash = ctx.hash →
      (spinEndpoint ctx sink pid req st e1).result = .ok resp →
      (spinEndpoint ctx2 sink2 pid req (spinEndpoint ctx sink pid req st e1).store e2).result =
        .ok resp ∧
      (spinEndpoint ctx2 sink2 pid req (spinEndpoint ctx sink pid req st e1).store e2).store =
        (spinEndpoint ctx sink pid req st e1).store ∧
      (spinEndpoint ctx2 sink2 pid req (spinEndpoint ctx sink pid req st e1).store e2).trace =
        [.idemGet req.clientRequestId]) := by
  refine ⟨?_, ?_, ?_, ?_⟩
  · intro hsh st rid p h
    exact checkIdempotency_miss hsh st rid p h
  · intro hsh st rid p rec hrec hh
    unfold checkIdempotency
    rw [hrec]
    dsimp only
    rw [if_neg (by simp [hh])]
  · intro hsh st rid p rec hrec hh
    unfold checkIdempotency
    rw [hrec]
    dsimp only
    rw [if_pos hh]
  · intro ctx ctx2 sink sink2 pid req st e1 e2 resp hh h
    have hval := spinEndpoint_success_valid ctx sink pid req st e1 resp h
    have hidem := spinEndpoint_success_idem ctx sink pid req st e1 resp h
    have hfast : checkIdempotency ctx2.hash (spinEndpoint ctx sink pid req st e1).store
        req.clientRequestId (payloadOf req) = .ok (some resp) := by
      unfold checkIdempotency
      rw [hidem]
      dsimp only
      rw [if_neg (by simp [hh])]
    set S := (spinEndpoint ctx sink pid req st e1).store with hS
    simp only [spinEndpoint, hval, hfast]
    refine ⟨?_, ?_, ?_⟩ <;> first | rfl | trivial

/-- Concrete objects for the orchestrator witnesses. -/
def sinkOk : TelemetrySink := fun _ => .ok ()

def hashConst : Payload → String := fun _ => "h0"

def ctx0 : SpinContext :=
  { hash := hashConst, cfgHash := "cfg", g := constHalfStream,
    lockToken := "tok", roundId := "round-1" }

def stEmpty : Store := ⟨fun _ => none, fun _ => none, fun _ => none⟩

def stLocked : Store :=
  { stEmpty with lock := fun k => if k = "p1" then some "other" else none }

def req0 : SpinRequest := { clientRequestId := "A", betAmount := 1 }

/-- Witness for C2 at a concrete input: a fresh store misses, and a replay of
a successful spin returns the identical response without touching the
store. -/
theorem idempotency_contract_witness :
    (stEmpty.idem "A" = none ∧ checkIdempotency hashConst stEmpty "A" (payloadOf req0) = .ok none) ∧
    (ctx0.hash = ctx0.hash ∧
      (spinEndpoint ctx0 sinkOk "p1" req0 stEmpty 0).result =
        .ok (buildSpinResponse "round-1"
          (spin constHalfStream {} 1 SpinMode.NORMAL false none).1) ∧
      (spinEndpoint ctx0 sinkOk "p1" req0
          (spinEndpoint ctx0 sinkOk "p1" req0 stEmpty 0).store 0).result =
        .ok (buildSpinResponse "round-1"
          (spin constHalfStream {} 1 SpinMode.NORMAL false none).1) ∧
      (spinEndpoint ctx0 sinkOk "p1" req0
          (spinEndpoint ctx0 sinkOk "p1" req0 stEmpty 0).store 0).store =
        (spinEndpoint ctx0 sinkOk "p1" req0 stEmpty 0).store) := by
  have hmiss := checkIdempotency_miss hashConst stEmpty "A" (payloadOf req0) rfl
  have hfirst : (spinEndpoint ctx0 sinkOk "p1" req0 stEmpty 0).result =
      .ok (buildSpinResponse "round-1"
        (spin constHalfStream {} 1 SpinMode.NORMAL false none).1) := by
    with_unfolding_all rfl
  have hreplay := (idempotency_contract.2.2.2 ctx0 ctx0 sinkOk sinkOk "p1" req0 stEmpty 0 0
    (buildSpinResponse "round-1" (spin constHalfStream {} 1 SpinMode.NORMAL false none).1)
    rfl hfirst)
  exact ⟨⟨rfl, hmiss⟩, rfl, hfirst, hreplay.1, hreplay.2.1⟩

/-- C3.  On a fresh (validated, non-replayed, unlocked) spin the endpoint
performs exactly: fast idempotency read, lock acquire, slow idempotency read,
state read, idempotency write, then the state write-or-delete, then the lock
release — the idempotency record is written strictly before any player-state
write or delete.  The state key is deleted iff the engine's next state is
BASE or has no free spins left (equivalently: not persisted), and otherwise
the persisted record carries the incremented `bonusContinuationCount`.  The
idempotency record holds the hashed payload and the full response. -/
theorem write_order_idempotency_before_state (ctx : SpinContext)
    (sink : TelemetrySink) (pid : String) (req : SpinRequest) (st : Store)
    (errs : ℕ) (hval : validateSpinRequest req = .ok ())
    (hidem : st.idem req.clientRequestId = none) (hlock : st.lock pid = none) :
    (spinEndpoint ctx sink pid req st errs).trace =
      [.idemGet req.clientRequestId, .lockAcquire pid, .idemGet req.clientRequestId,
       .stateGet pid, .idemWrite req.clientRequestId,
       (if (spin ctx.g ctx.c req.betAmount req.mode req.hypeMode
              ((st.state pid).map storedToGameState)).1.next_state.mode = GameMode.FREE_SPINS ∧
           (spin ctx.g ctx.c req.betAmount req.mode req.hypeMode
              ((st.state pid).map storedToGameState)).1.next_state.free_spins_remaining > 0
        then StoreOp.stateWrite pid else StoreOp.stateDelete pid),
       .lockRelease pid] ∧
    ((if (spin ctx.g ctx.c req.betAmount req.mode req.hypeMode
            ((st.state pid).map storedToGameState)).1.next_state.mode = GameMode.FREE_SPINS ∧
         (spin ctx.g ctx.c req.betAmount req.mode req.hypeMode
            ((st.state pid).map storedToGameState)).1.next_state.free_spins_remaining > 0
      then StoreOp.stateWrite pid else StoreOp.stateDelete pid) = StoreOp.stateDelete pid ↔
      ((spin ctx.g ctx.c req.betAmount req.mode req.hypeMode
          ((st.state pid).map storedToGameState)).1.next_state.mode = GameMode.BASE ∨
       (spin ctx.g ctx.c req.betAmount req.mode req.hypeMode
          ((st.state pid).map storedToGameState)).1.next_state.free_spins_remaining = 0)) ∧
    (spinEndpoint ctx sink pid req st errs).store.state pid =
      (if (spin ctx.g ctx.c req.betAmount req.mode req.hypeMode
             ((st.state pid).map storedToGameState)).1.next_state.mode = GameMode.FREE_SPINS ∧
          (spin ctx.g ctx.c req.betAmount req.mode req.hypeMode
             ((st.state pid).map storedToGameState)).1.next_state.free_spins_remaining > 0
       then some (persistedState
         (spin ctx.g ctx.c req.betAmount req.mode req.hypeMode
           ((st.state pid).map storedToGameState)).1
         (newBonusContinuationCount (st.state pid)))
       else none) ∧
    (spinEndpoint ctx sink pid req st errs).store.idem req.clientRequestId =
      some ⟨ctx.hash (payloadOf req),
        buildSpinResponse ctx.roundId
          (spin ctx.g ctx.c req.betAmount req.mode req.hypeMode
            ((st.state pid).map storedToGameState)).1⟩ := by
  have hfs := spin_next_fs_pos ctx.g ctx.c req.betAmount req.mode req.hypeMode
    ((st.state pid).map storedToGameState)
  have hchkF := checkIdempotency_miss ctx.hash st req.clientRequestId (payloadOf req) hidem
  have hchkS := checkIdempotency_miss ctx.hash
    { st with lock := fun k => if k = pid then some ctx.lockToken else st.lock k }
    req.clientRequestId (payloadOf req) hidem
  refine ⟨?_, ?_, ?_, ?_⟩
  · simp only [spinEndpoint, hval, hchkF]
    rw [acquirePlayerLock_free st pid ctx.lockToken hlock]
    dsimp only
    simp only [hchkS]
  · by_cases hp : (spin ctx.g ctx.c req.betAmount req.mode req.hypeMode
        ((st.state pid).map storedToGameState)).1.next_state.mode = GameMode.FREE_SPINS ∧
      (spin ctx.g ctx.c req.betAmount req.mode req.hypeMode
        ((st.state pid).map storedToGameState)).1.next_state.free_spins_remaining > 0
    · rw [if_pos hp]
      constructor
      · intro hcontra
        exact absurd hcontra (by simp)
      · rintro (hbase | hzero)
        · rw [hp.1] at hbase
          exact absurd hbase (by simp)
        · have := hp.2
          omega
    · rw [if_neg hp]
      refine ⟨fun _ => ?_, fun _ => rfl⟩
      by_cases hm : (spin ctx.g ctx.c req.betAmount req.mode req.hypeMode
          ((st.state pid).map storedToGameState)).1.next_state.mode = GameMode.FREE_SPINS
      · exact Or.inr (by have := hfs hm; exact absurd ⟨hm, this⟩ hp)
      · left
        cases hmm : (spin ctx.g ctx.c req.betAmount req.mode req.hypeMode
            ((st.state pid).map storedToGameState)).1.next_state.mode
        · rfl
        · exact absurd hmm hm
  · simp only [spinEndpoint, hval, hchkF]
    rw [acquirePlayerLock_free st pid ctx.lockToken hlock]
    dsimp only
    simp only [hchkS]
    rw [(releasePlayerLock_fields _ pid ctx.lockToken).2]
    split
    · rename_i hp
      unfold savePlayerState storeIdempotency
      simp
    · rename_i hp
      unfold clearPlayerState storeIdempotency
      simp
  · simp only [spinEndpoint, hval, hchkF]
    rw [acquirePlayerLock_free st pid ctx.lockToken hlock]
    dsimp only
    simp only [hchkS]
    rw [(releasePlayerLock_fields _ pid ctx.lockToken).1]
    split
    · rw [savePlayerState_idem]
      exact storeIdempotency_at _ _ _ _ _
    · rw [clearPlayerState_idem]
      exact storeIdempotency_at _ _ _ _ _

/-- Witness for C3 at a concrete input. -/
theorem write_order_idempotency_before_state_witness :
    validateSpinRequest req0 = .ok () ∧
    stEmpty.idem "A" = none ∧ stEmpty.lock "p1" = none ∧
    (spinEndpoint ctx0 sinkOk "p1" req0 stEmpty 0).trace =
      [.idemGet "A", .lockAcquire "p1", .idemGet "A", .stateGet "p1", .idemWrite "A",
       (if (spin ctx0.g ctx0.c req0.betAmount req0.mode req0.hypeMode
              ((stEmpty.state "p1").map storedToGameState)).1.next_state.mode = GameMode.FREE_SPINS ∧
           (spin ctx0.g ctx0.c req0.betAmount req0.mode req0.hypeMode
              ((stEmpty.state "p1").map storedToGameState)).1.next_state.free_spins_remaining > 0
        then StoreOp.stateWrite "p1" else StoreOp.stateDelete "p1"),
       .lockRelease "p1"] := by
  have hval : validateSpinRequest req0 = .ok () := by with_unfolding_all rfl
  exact ⟨hval, rfl, rfl,
    (write_order_idempotency_before_state ctx0 sinkOk "p1" req0 stEmpty 0 hval rfl rfl).1⟩

/-- C10.  Telemetry emission never raises: `_safe_emit` totalises any sink
(a failure only bumps the error counter), and the `/spin` result, the store
effects and the operation trace are identical for any two sinks — in
particular for a sink that raises on every emit.  The three `emit_*` helpers
all delegate to `_safe_emit`. -/
theorem telemetry_sink_never_propagates :
    (∀ (sink : TelemetrySink) (errs : ℕ) (ev : TelemetryEvent),
      safeEmit sink errs ev =
        errs + (match sink ev with | .ok _ => 0 | .error _ => 1)) ∧
    (∀ (ctx : SpinContext) (sink1 sink2 : TelemetrySink) (pid : String)
      (req : SpinRequest) (st : Store) (errs : ℕ),
      (spinEndpoint ctx sink1 pid req st errs).result =
        (spinEndpoint ctx sink2 pid req st errs).result ∧
      (spinEndpoint ctx sink1 pid req st errs).store =
        (spinEndpoint ctx sink2 pid req st errs).store ∧
      (spinEndpoint ctx sink1 pid req st errs).trace =
        (spinEndpoint ctx sink2 pid req st errs).trace) := by
  constructor
  · intro sink errs ev
    unfold safeEmit
    cases sink ev <;> simp
  · intro ctx sink1 sink2 pid req st errs
    simp only [spinEndpoint]
    repeat' split
    all_goals exact ⟨rfl, rfl, rfl⟩

/-- C4.  (i) When the per-player lock is already held, a validated spin that
misses the idempotency fast path is rejected with ROUND_IN_PROGRESS; (ii)
lock release is compare-and-delete: releasing with a token that does not
match the stored value is a no-op on the store; (iii) the scoped lock is
released on every exit path: whenever the endpoint starts with the player's
lock free, it ends with the player's lock free, whatever the outcome. -/
theorem player_lock_safety :
    (∀ (ctx : SpinContext) (sink : TelemetrySink) (pid : String)
      (req : SpinRequest) (st : Store) (errs : ℕ) (tok : String),
      validateSpinRequest req = .ok () →
      checkIdempotency ctx.hash st req.clientRequestId (payloadOf req) = .ok none →
      st.lock pid = some tok →
      (spinEndpoint ctx sink pid req st errs).result =
        .error ⟨.ROUND_IN_PROGRESS, "Another spin is in progress for this player."⟩ ∧
      (spinEndpoint ctx sink pid req st errs).store = st) ∧
    (∀ (st : Store) (pid tok : String), st.lock pid ≠ some tok →
      releasePlayerLock st pid tok = (false, st)) ∧
    (∀ (ctx : SpinContext) (sink : TelemetrySink) (pid : String)
      (req : SpinRequest) (st : Store) (errs : ℕ),
      st.lock pid = none →
      (spinEndpoint ctx sink pid req st errs).store.lock pid = none) := by
  refine ⟨?_, ?_, ?_⟩
  · intro ctx sink pid req st errs tok hval hchk hlock
    simp only [spinEndpoint, hval, hchk,
      acquirePlayerLock_held st pid ctx.lockToken tok hlock]
    exact ⟨trivial, trivial⟩
  · intro st pid tok h
    unfold releasePlayerLock
    rw [if_neg h]
  · intro ctx sink pid req st errs hlock
    simp only [spinEndpoint]
    cases hval : validateSpinRequest req
    · exact hlock
    · cases hchk : checkIdempotency ctx.hash st req.clientRequestId (payloadOf req)
      · exact hlock
      · rename_i v
        cases v
        · rw [acquirePlayerLock_free st pid ctx.lockToken hlock]
          dsimp only
          have hlock1 :
              ({ st with lock := fun k => if k = pid then some ctx.lockToken else st.lock k } : Store).lock pid =
                some ctx.lockToken := by simp
          cases hchk2 : checkIdempotency ctx.hash
              { st with lock := fun k => if k = pid then some ctx.lockToken else st.lock k }
              req.clientRequestId (payloadOf req)
          · with_unfolding_all exact releasePlayerLock_match _ pid ctx.lockToken hlock1
          · rename_i v2
            cases v2
            · with_unfolding_all show (releasePlayerLock _ pid ctx.lockToken).2.lock pid = none
              refine releasePlayerLock_match _ pid ctx.lockToken ?_
              split
              · rw [savePlayerState_lock, storeIdempotency_lock]
                exact hlock1
              · rw [clearPlayerState_lock, storeIdempotency_lock]
                exact hlock1
            · with_unfolding_all exact releasePlayerLock_match _ pid ctx.lockToken hlock1
        · exact hlock

/-- Witness for C4 at concrete inputs: a held lock rejects the spin; a
mismatched release token is a no-op; a run from an unlocked store ends
unlocked. -/
theorem player_lock_safety_witness :
    (validateSpinRequest req0 = .ok () ∧
     checkIdempotency ctx0.hash stLocked "A" (payloadOf req0) = .ok none ∧
     stLocked.lock "p1" = some "other" ∧
     (spinEndpoint ctx0 sinkOk "p1" req0 stLocked 0).result =
       .error ⟨.ROUND_IN_PROGRESS, "Another spin is in progress for this player."⟩) ∧
    (stEmpty.lock "p1" ≠ some "tok" ∧
     releasePlayerLock stEmpty "p1" "tok" = (false, stEmpty)) ∧
    (stEmpty.lock "p1" = none ∧
     (spinEndpoint ctx0 sinkOk "p1" req0 stEmpty 0).store.lock "p1" = none) := by
  have hval : validateSpinRequest req0 = .ok () := by with_unfolding_all rfl
  have hchk : checkIdempotency ctx0.hash stLocked "A" (payloadOf req0) = .ok none := rfl
  have hlk : stLocked.lock "p1" = some "other" := by with_unfolding_all rfl
  have hne : stEmpty.lock "p1" ≠ some "tok" := by
    intro h
    exact Option.noConfusion h
  exact ⟨⟨hval, hchk, hlk,
      (player_lock_safety.1 ctx0 sinkOk "p1" req0 stLocked 0 "other" hval hchk hlk).1⟩,
    ⟨hne, player_lock_safety.2.1 stEmpty "p1" "tok" hne⟩,
    ⟨rfl, player_lock_safety.2.2 ctx0 sinkOk "p1" req0 stEmpty 0 rfl⟩⟩

/-! Per-step preservation of `StateInvariants`. -/

set_option maxHeartbeats 1000000 in
theorem stepMeter_inv (rd n : GameState) (tw : ℚ) (w sc : ℕ)
    (hq : StateInvariants n) : StateInvariants (stepMeter rd n tw w sc).1 := by
  simp only [StateInvariants, AFTERPARTY_METER_MAX] at hq ⊢
  obtain ⟨a1, a2, a3, a4, a5, a6, a7, a8, a9, a10, a11, a12, a13, a14, a15, a16⟩ := hq
  simp only [stepMeter, AFTERPARTY_METER_MAX, AFTERPARTY_METER_INC_ON_ANY_WIN,
    AFTERPARTY_METER_INC_ON_WILD_PRESENT, AFTERPARTY_METER_INC_ON_TWO_SCATTERS,
    AFTERPARTY_RAGE_SPINS]
  split_ifs <;> (try dsimp only) <;>
    refine ⟨?_, ?_, ?_, ?_, ?_, ?_, ?_, ?_, ?_, ?_, ?_, ?_, ?_, ?_, ?_, ?_⟩ <;>
    first
      | omega
      | (intro hmode; simp_all; omega)
      | (intro hmode; simp_all; done)
      | (simp_all; omega)
      | (simp_all; done)

set_option maxHeartbeats 1000000 in
theorem stepStreaks_inv (rd n : GameState) (twx : ℚ)
    (hqr : StateInvariants rd) (hq : StateInvariants n) :
    StateInvariants (stepStreaks rd n twx) := by
  simp only [StateInvariants, AFTERPARTY_METER_MAX] at hqr hq ⊢
  obtain ⟨a1, a2, a3, a4, a5, a6, a7, a8, a9, a10, a11, a12, a13, a14, a15, a16⟩ := hq
  obtain ⟨b1, b2, b3, b4, b5, b6, b7, b8, b9, b10, b11, b12, b13, b14, b15, b16⟩ := hqr
  simp only [stepStreaks]
  split_ifs <;> (try dsimp only) <;>
    refine ⟨?_, ?_, ?_, ?_, ?_, ?_, ?_, ?_, ?_, ?_, ?_, ?_, ?_, ?_, ?_, ?_⟩ <;>
    first
      | omega
      | (intro hmode; simp_all; omega)
      | (intro hmode; simp_all; done)
      | (simp_all; omega)
      | (simp_all; done)

set_option maxHeartbeats 1000000 in
theorem stepCooldown_inv (rd n : GameState) (hq : StateInvariants n) :
    StateInvariants (stepCooldown rd n) := by
  simp only [StateInvariants, AFTERPARTY_METER_MAX] at hq ⊢
  obtain ⟨a1, a2, a3, a4, a5, a6, a7, a8, a9, a10, a11, a12, a13, a14, a15, a16⟩ := hq
  simp only [stepCooldown]
  split_ifs <;> (try dsimp only) <;>
    refine ⟨?_, ?_, ?_, ?_, ?_, ?_, ?_, ?_, ?_, ?_, ?_, ?_, ?_, ?_, ?_, ?_⟩ <;>
    first
      | omega
      | (intro hmode; simp_all; omega)
      | (intro hmode; simp_all; done)
      | (simp_all; omega)
      | (simp_all; done)

set_option maxHeartbeats 1000000 in
theorem stepRage_inv (rd n : GameState) (hqr : StateInvariants rd)
    (hq : StateInvariants n) : StateInvariants (stepRage rd n).1 := by
  simp only [StateInvariants, AFTERPARTY_METER_MAX] at hqr hq ⊢
  obtain ⟨a1, a2, a3, a4, a5, a6, a7, a8, a9, a10, a11, a12, a13, a14, a15, a16⟩ := hq
  obtain ⟨b1, b2, b3, b4, b5, b6, b7, b8, b9, b10, b11, b12, b13, b14, b15, b16⟩ := hqr
  simp only [stepRage, AFTERPARTY_RAGE_COOLDOWN_SPINS]
  split_ifs <;> (try dsimp only) <;>
    refine ⟨?_, ?_, ?_, ?_, ?_, ?_, ?_, ?_, ?_, ?_, ?_, ?_, ?_, ?_, ?_, ?_⟩ <;>
    first
      | omega
      | (intro hmode; simp_all; omega)
      | (intro hmode; simp_all; done)
      | (simp_all; omega)
      | (simp_all; done)

set_option maxHeartbeats 1000000 in
theorem stepWindow_inv (rd n : GameState) (twx : ℚ)
    (hqr : StateInvariants rd) (hq : StateInvariants n) :
    StateInvariants (stepWindow rd n twx).1 := by
  simp only [StateInvariants, AFTERPARTY_METER_MAX] at hqr hq ⊢
  obtain ⟨a1, a2, a3, a4, a5, a6, a7, a8, a9, a10, a11, a12, a13, a14, a15, a16⟩ := hq
  obtain ⟨b1, b2, b3, b4, b5, b6, b7, b8, b9, b10, b11, b12, b13, b14, b15, b16⟩ := hqr
  simp only [stepWindow]
  split_ifs <;> (try dsimp only) <;>
    refine ⟨?_, ?_, ?_, ?_, ?_, ?_, ?_, ?_, ?_, ?_, ?_, ?_, ?_, ?_, ?_, ?_⟩ <;>
    first
      | omega
      | (intro hmode; simp_all; omega)
      | (intro hmode; simp_all; done)
      | (simp_all; omega)
      | (simp_all; done)

set_option maxHeartbeats 1000000 in
theorem stepScatter_inv (rd n : GameState) (sc : ℕ)
    (hq : StateInvariants n) : StateInvariants (stepScatterTrigger rd n sc).1 := by
  simp only [StateInvariants, AFTERPARTY_METER_MAX] at hq ⊢
  obtain ⟨a1, a2, a3, a4, a5, a6, a7, a8, a9, a10, a11, a12, a13, a14, a15, a16⟩ := hq
  simp only [stepScatterTrigger]
  split_ifs <;> (try dsimp only) <;>
    refine ⟨?_, ?_, ?_, ?_, ?_, ?_, ?_, ?_, ?_, ?_, ?_, ?_, ?_, ?_, ?_, ?_⟩ <;>
    first
      | omega
      | (intro hmode; simp_all; omega)
      | (intro hmode; simp_all; done)
      | (simp_all; omega)
      | (simp_all; done)

set_option maxHeartbeats 1000000 in
theorem stepFreeSpins_inv (rd n : GameState) (tw twx : ℚ)
    (hqr : StateInvariants rd) (hq : StateInvariants n)
    (hlink : rd.mode = GameMode.FREE_SPINS → n.mode = GameMode.FREE_SPINS) :
    StateInvariants (stepFreeSpins rd n tw twx).1 := by
  simp only [StateInvariants, AFTERPARTY_METER_MAX] at hqr hq ⊢
  obtain ⟨a1, a2, a3, a4, a5, a6, a7, a8, a9, a10, a11, a12, a13, a14, a15, a16⟩ := hq
  obtain ⟨b1, b2, b3, b4, b5, b6, b7, b8, b9, b10, b11, b12, b13, b14, b15, b16⟩ := hqr
  simp only [stepFreeSpins]
  split_ifs <;> (try dsimp only) <;>
    refine ⟨?_, ?_, ?_, ?_, ?_, ?_, ?_, ?_, ?_, ?_, ?_, ?_, ?_, ?_, ?_, ?_⟩ <;>
    first
      | omega
      | (intro hmode; simp_all; omega)
      | (intro hmode; simp_all; done)
      | (simp_all; omega)
      | (simp_all; done)

theorem buyEntry_inv (s : GameState) (hq : StateInvariants s) :
    StateInvariants (buyEntryState s) := by
  simp only [StateInvariants, AFTERPARTY_METER_MAX] at hq ⊢
  obtain ⟨a1, a2, a3, a4, a5, a6, a7, a8, a9, a10, a11, a12, a13, a14, a15, a16⟩ := hq
  simp only [buyEntryState]
  refine ⟨?_, ?_, ?_, ?_, ?_, ?_, ?_, ?_, ?_, ?_, ?_, ?_, ?_, ?_, ?_, ?_⟩ <;>
    first
      | omega
      | (intro hmode; simp_all; omega)
      | (intro hmode; simp_all; done)
      | (simp_all; omega)
      | (simp_all; done)

theorem spinSteps_inv (buy : Prop) [Decidable buy] (s0 n0 : GameState)
    (tw twx : ℚ) (w sc : ℕ) (hq0 : StateInvariants s0)
    (hqn : StateInvariants n0) (hnb : ¬buy → n0 = s0) :
    StateInvariants (spinSteps buy s0 n0 tw twx w sc).1 := by
  by_cases hb : buy
  · simp only [spinSteps, if_pos hb]
    set m1 := (stepMeter n0 n0 tw w sc).1 with hm1
    have h1 : StateInvariants m1 := stepMeter_inv n0 n0 tw w sc hqn
    set m2 := stepStreaks m1 m1 twx with hm2
    have h2 : StateInvariants m2 := stepStreaks_inv m1 m1 twx h1 h1
    set m3 := stepCooldown m2 m2 with hm3
    have h3 : StateInvariants m3 := stepCooldown_inv m2 m2 h2
    set m4 := (stepRage m3 m3).1 with hm4
    have h4 : StateInvariants m4 := stepRage_inv m3 m3 h3 h3
    set m5 := (stepWindow m4 m4 twx).1 with hm5
    have h5 : StateInvariants m5 := stepWindow_inv m4 m4 twx h4 h4
    set m6 := (stepScatterTrigger m5 m5 sc).1 with hm6
    have h6 : StateInvariants m6 := stepScatter_inv m5 m5 sc h5
    exact stepFreeSpins_inv m6 m6 tw twx h6 h6 (fun h => h)
  · have hn0 : n0 = s0 := hnb hb
    subst hn0
    simp only [spinSteps, if_neg hb]
    set m1 := (stepMeter n0 n0 tw w sc).1 with hm1
    have h1 : StateInvariants m1 := stepMeter_inv n0 n0 tw w sc hqn
    set m2 := stepStreaks n0 m1 twx with hm2
    have h2 : StateInvariants m2 := stepStreaks_inv n0 m1 twx hqn h1
    set m3 := stepCooldown n0 m2 with hm3
    have h3 : StateInvariants m3 := stepCooldown_inv n0 m2 h2
    set m4 := (stepRage n0 m3).1 with hm4
    have h4 : StateInvariants m4 := stepRage_inv n0 m3 hqn h3
    set m5 := (stepWindow n0 m4 twx).1 with hm5
    have h5 : StateInvariants m5 := stepWindow_inv n0 m4 twx hqn h4
    set m6 := (stepScatterTrigger n0 m5 sc).1 with hm6
    have h6 : StateInvariants m6 := stepScatter_inv n0 m5 sc h5
    refine stepFreeSpins_inv n0 m6 tw twx hqn h6 ?_
    intro hs
    have hmode : m6.mode = n0.mode := by
      rw [hm6, stepScatter_skipG n0 m5 sc
        (by rintro ⟨-, hB⟩; rw [hs] at hB; exact absurd hB (by simp))]
      show m5.mode = n0.mode
      rw [hm5, stepWindow_mode, hm4, stepRage_mode, hm3, stepCooldown_mode,
        hm2, stepStreaks_mode, hm1, stepMeter_mode]
    rw [hmode]
    exact hs

/-- C8 (corrected): the counterexample.  From a base-mode state with the
afterparty meter at 97 — a state satisfying every invariant the claim lists —
a single spin whose grid carries exactly three scatters and a win fills the
meter (rage starts) and simultaneously triggers the natural free-spins bonus,
so the returned next state has `rage_active = true` with `mode = FREE_SPINS`,
violating the claimed `rageActive ⇒ mode=BASE`. -/
theorem claimed_invariants_not_preserved :
    ClaimedInvariants sCexC8 ∧
    (spin gCexC8 {} 1 SpinMode.NORMAL false (some sCexC8)).1.next_state.rage_active = true ∧
    (spin gCexC8 {} 1 SpinMode.NORMAL false (some sCexC8)).1.next_state.mode =
      GameMode.FREE_SPINS ∧
    ¬ClaimedInvariants (spin gCexC8 {} 1 SpinMode.NORMAL false (some sCexC8)).1.next_state := by
  with_unfolding_all decide

/-- C8 (amended).  Every engine spin preserves the state invariants that
actually hold: starting from a state satisfying `StateInvariants` — the
claim's list with `rageActive ⇒ mode=BASE` dropped (rage can outlive BASE
mode when a scatter trigger fires on the rage-starting spin) and
`mode=FREE_SPINS ⇒ freeSpinsRemaining>0` added — the returned next state
satisfies them again: `mode=BASE ⇒ freeSpinsRemaining=0 ∧ heatLevel=0 ∧
bonusIsBought=false`, `rageActive ⇒ rageSpinsLeft>0`, `afterpartyMeter ≤
meterMax`, and all counters non-negative. -/
theorem state_invariants_preserved (g : RNGStream) (c : RNGCtr) (bet : ℚ)
    (mode : SpinMode) (hype : Bool) (state? : Option GameState)
    (hq : StateInvariants (state?.getD {})) :
    StateInvariants (spin g c bet mode hype state?).1.next_state := by
  obtain ⟨tw, twx, w, sc, hns⟩ := spin_next_decomp g c bet mode hype state?
  rw [hns]
  apply spinSteps_inv
  · exact hq
  · unfold effEntryState
    split
    · exact buyEntry_inv _ hq
    · exact hq
  · intro hnb
    unfold effEntryState
    rw [if_neg]
    exact hnb

/-- Witness for C8 at a concrete input: the fresh default state satisfies the
invariants, and so does the next state of a constant-RNG spin from it. -/
theorem state_invariants_preserved_witness :
    StateInvariants ((none : Option GameState).getD {}) ∧
    StateInvariants
      (spin constHalfStream {} 1 SpinMode.NORMAL false none).1.next_state :=
  ⟨by decide,
   state_invariants_preserved constHalfStream {} 1 SpinMode.NORMAL false none
     (by decide)⟩

/-! ## Event ordering lemmas (C7) -/

theorem foldl_winLine_events {α : Type} (f : (ℚ × List Event) → α → (ℚ × List Event))
    (hf : ∀ acc x, (f acc x).2 = acc.2 ∨
      ∃ i a w2, (f acc x).2 = acc.2 ++ [Event.winLine i a w2]) :
    ∀ (l : List α) (acc : ℚ × List Event), (∀ e ∈ acc.2, eventOrderIdx e = 2) →
      ∀ e ∈ (l.foldl f acc).2, eventOrderIdx e = 2 := by
  intro l
  induction l with
  | nil =>
    intro acc h
    simpa using h
  | cons x t ih =>
    intro acc h
    rw [List.foldl_cons]
    refine ih _ ?_
    rcases hf acc x with h2 | ⟨i, a, w2, h2⟩
    · rw [h2]
      exact h
    · rw [h2]
      intro e he
      rcases List.mem_append.1 he with hm | hm
      · exact h e hm
      · simp only [List.mem_singleton] at hm
        subst hm
        rfl

theorem calculateWin_events (grid : List (List ℕ)) (bet : ℚ) :
    ∀ e ∈ (calculateWin grid bet).2, eventOrderIdx e = 2 := by
  intro e he
  simp only [calculateWin] at he
  rcases hsp : SCATTER_PAYS (countScattersOnly grid) with _ | pay <;> rw [hsp] at he
  · dsimp only at he
    refine foldl_winLine_events _ ?_ PAYLINES.enum (0, []) (by simp) e he
    intro acc p
    obtain ⟨amt, cnt⟩ := checkLine (lineSymbols grid p.2) bet
    dsimp only
    split_ifs <;>
      first
        | exact Or.inl rfl
        | exact Or.inr ⟨_, _, _, rfl⟩
  · dsimp only at he
    by_cases hsc : countScattersOnly grid ≥ 3
    · rw [if_pos hsc] at he
      dsimp only at he
      rcases List.mem_append.1 he with h | h
      · refine foldl_winLine_events _ ?_ PAYLINES.enum (0, []) (by simp) e h
        intro acc p
        obtain ⟨amt, cnt⟩ := checkLine (lineSymbols grid p.2) bet
        dsimp only
        split_ifs <;>
          first
            | exact Or.inl rfl
            | exact Or.inr ⟨_, _, _, rfl⟩
      · simp only [List.mem_singleton] at h
        subst h
        rfl
    · rw [if_neg hsc] at he
      refine foldl_winLine_events _ ?_ PAYLINES.enum (0, []) (by simp) e he
      intro acc p
      obtain ⟨amt, cnt⟩ := checkLine (lineSymbols grid p.2) bet
      dsimp only
      split_ifs <;>
        first
          | exact Or.inl rfl
          | exact Or.inr ⟨_, _, _, rfl⟩

theorem spotEvents_cases (l : List ℕ) :
    spotEvents l = [] ∨ spotEvents l = [Event.spotlightWilds l l.length] := by
  unfold spotEvents
  split_ifs
  · exact Or.inr rfl
  · exact Or.inl rfl

theorem stepMeter_skipRage (rd n : GameState) (tw : ℚ) (w sc : ℕ)
    (h : rd.rage_active = true) : stepMeter rd n tw w sc = (n, []) := by
  unfold stepMeter
  rw [if_neg]
  rintro ⟨-, -, hr⟩
  exact hr (by simp [h])

theorem stepMeter_events_cases (rd n : GameState) (tw : ℚ) (w sc : ℕ) :
    (stepMeter rd n tw w sc).2 = [] ∨
    (∃ v b, (stepMeter rd n tw w sc).2 = [Event.afterpartyMeterUpdate v b]) ∨
    (∃ v, (stepMeter rd n tw w sc).2 =
      [Event.afterpartyMeterUpdate v true,
       Event.eventStart "afterpartyRage" "meter_full" AFTERPARTY_RAGE_SPINS
         (some AFTERPARTY_RAGE_MULTIPLIER)]) := by
  simp only [stepMeter]
  by_cases hg : ENABLE_AFTERPARTY_METER ∧ rd.mode = GameMode.BASE ∧ ¬rd.rage_active
  · rw [if_pos hg]
    generalize (if tw > 0 then
        min (n.afterparty_meter + AFTERPARTY_METER_INC_ON_ANY_WIN) AFTERPARTY_METER_MAX
      else n.afterparty_meter) = m1
    generalize (if w > 0 then
        min (m1 + AFTERPARTY_METER_INC_ON_WILD_PRESENT) AFTERPARTY_METER_MAX
      else m1) = m2
    generalize (if sc = 2 then
        min (m2 + AFTERPARTY_METER_INC_ON_TWO_SCATTERS) AFTERPARTY_METER_MAX
      else m2) = m3
    by_cases hT : m3 ≥ AFTERPARTY_METER_MAX ∧ rd.rage_cooldown_remaining = 0
    · rw [if_pos hT]
      dsimp only
      rw [if_pos (Or.inr hT), decide_eq_true hT, if_pos hT, List.singleton_append]
      exact Or.inr (Or.inr ⟨0, rfl⟩)
    · rw [if_neg hT]
      dsimp only
      rw [if_neg hT, List.append_nil]
      by_cases hC : m3 ≠ n.afterparty_meter ∨
        (m3 ≥ AFTERPARTY_METER_MAX ∧ rd.rage_cooldown_remaining = 0)
      · rw [if_pos hC]
        exact Or.inr (Or.inl ⟨_, _, rfl⟩)
      · rw [if_neg hC]
        exact Or.inl rfl
  · rw [if_neg hg]
    exact Or.inl rfl

theorem stepRage_events_cases (rd n : GameState) :
    (stepRage rd n).2 = [] ∨ (stepRage rd n).2 = [Event.eventEnd "afterpartyRage"] := by
  simp only [stepRage]
  split_ifs
  · exact Or.inr rfl
  · exact Or.inl rfl
  · exact Or.inl rfl

theorem stepWindow_events_cases (rd n : GameState) (twx : ℚ) :
    (stepWindow rd n twx).2 = [] ∨
    (stepWindow rd n twx).2 = [Event.eventStart "boost" "smallwins" BOOST_SPINS none] ∨
    (stepWindow rd n twx).2 =
      [Event.eventStart "explosive" "win_threshold" EXPLOSIVE_SPINS none] ∨
    (stepWindow rd n twx).2 =
      [Event.eventStart "boost" "smallwins" BOOST_SPINS none,
       Event.eventStart "explosive" "win_threshold" EXPLOSIVE_SPINS none] := by
  simp only [stepWindow]
  split_ifs
  · exact Or.inr (Or.inr (Or.inr rfl))
  · exact Or.inr (Or.inl rfl)
  · exact Or.inr (Or.inr (Or.inl rfl))
  · exact Or.inl rfl

theorem stepScatter_events_cases (rd n : GameState) (sc : ℕ) :
    (stepScatterTrigger rd n sc).2 = [] ∨
    ∃ cnt, (stepScatterTrigger rd n sc).2 =
      [Event.enterFreeSpins cnt "scatter" "standard", Event.heatUpdate 1] := by
  simp only [stepScatterTrigger]
  split_ifs
  · exact Or.inr ⟨_, rfl⟩
  · exact Or.inl rfl

theorem stepFreeSpins_events_cases (rd n : GameState) (tw twx : ℚ) :
    (stepFreeSpins rd n tw twx).2 = [] ∨
    (∃ lv, (stepFreeSpins rd n tw twx).2 = [Event.heatUpdate lv]) ∨
    (∃ a b x v, (stepFreeSpins rd n tw twx).2 = [Event.bonusEnd a b x v]) ∨
    (∃ lv a b x v, (stepFreeSpins rd n tw twx).2 =
      [Event.heatUpdate lv, Event.bonusEnd a b x v]) := by
  simp only [stepFreeSpins]
  split_ifs
  all_goals first
    | exact Or.inl rfl
    | exact Or.inr (Or.inl ⟨_, rfl⟩)
    | exact Or.inr (Or.inr (Or.inl ⟨_, _, _, _, rfl⟩))
    | exact Or.inr (Or.inr (Or.inr ⟨_, _, _, _, _, rfl⟩))

theorem tierEvents_cases (twx : ℚ) :
    tierEvents twx = [] ∨ ∃ t x, tierEvents twx = [Event.winTier t x] := by
  unfold tierEvents
  split_ifs
  · exact Or.inr ⟨_, _, rfl⟩
  · exact Or.inl rfl

theorem sorted_append_bound (a b : List Event) (k : ℕ)
    (ha : List.Sorted (· ≤ ·) (a.map eventOrderIdx))
    (hb : List.Sorted (· ≤ ·) (b.map eventOrderIdx))
    (hak : ∀ e ∈ a, eventOrderIdx e ≤ k) (hkb : ∀ e ∈ b, k ≤ eventOrderIdx e) :
    List.Sorted (· ≤ ·) ((a ++ b).map eventOrderIdx) := by
  rw [List.map_append]
  refine List.pairwise_append.2 ⟨ha, hb, ?_⟩
  intro x hx y hy
  rcases List.mem_map.1 hx with ⟨e, he, rfl⟩
  rcases List.mem_map.1 hy with ⟨f, hf, rfl⟩
  exact le_trans (hak e he) (hkb f hf)

theorem isWinTierB_false_of_le (e : Event) (h : eventOrderIdx e ≤ 8) :
    isWinTierB e = false := by
  cases e <;> first
    | rfl
    | (exfalso; simp [eventOrderIdx] at h)

theorem hi_append (a b : List Event) (k : ℕ)
    (ha : ∀ e ∈ a, eventOrderIdx e ≤ k) (hb : ∀ e ∈ b, eventOrderIdx e ≤ k) :
    ∀ e ∈ a ++ b, eventOrderIdx e ≤ k := by
  intro e he
  rcases List.mem_append.1 he with h | h
  exacts [ha e h, hb e h]

theorem hi_mono (a : List Event) (k j : ℕ) (h : j ≤ k)
    (hj : ∀ e ∈ a, eventOrderIdx e ≤ j) : ∀ e ∈ a, eventOrderIdx e ≤ k :=
  fun e he => le_trans (hj e he) h

theorem sorted_map_of_const (l : List Event) (k : ℕ)
    (h : ∀ e ∈ l, eventOrderIdx e = k) :
    List.Sorted (· ≤ ·) (l.map eventOrderIdx) := by
  induction l with
  | nil => simp
  | cons x t ih =>
    rw [List.map_cons]
    refine List.sorted_cons.2 ⟨?_, ih (fun e he => h e (List.mem_cons_of_mem x he))⟩
    intro b hb
    rcases List.mem_map.1 hb with ⟨e, he, rfl⟩
    rw [h x (List.mem_cons_self x t), h e (List.mem_cons_of_mem x he)]

/-- Pure list-level assembly of the event-order facts: given the shape of
each emitted segment — and the mutual exclusion of the meter segment and the
rage-end segment — the concatenated event list is sorted by `eventOrderIdx`,
carries `winTier` only in last position, and every rage `eventStart` is
immediately preceded by the triggering `afterpartyMeterUpdate`. -/
theorem events_order_assembly (grid : List (List ℕ)) (Sp Awin M R W S F T : List Event)
    (hSp : ∀ e ∈ Sp, eventOrderIdx e = 1)
    (hAwin : ∀ e ∈ Awin, eventOrderIdx e = 2)
    (hM : M = [] ∨ (∃ v b, M = [Event.afterpartyMeterUpdate v b]) ∨
      (∃ v, M = [Event.afterpartyMeterUpdate v true,
        Event.eventStart "afterpartyRage" "meter_full" AFTERPARTY_RAGE_SPINS
          (some AFTERPARTY_RAGE_MULTIPLIER)]))
    (hR : ∀ e ∈ R, eventOrderIdx e = 4)
    (hMR : M = [] ∨ R = [])
    (hW5 : ∀ e ∈ W, eventOrderIdx e = 5)
    (hWnr : ∀ r d m2, Event.eventStart "afterpartyRage" r d m2 ∉ W)
    (hS : List.Sorted (· ≤ ·) (S.map eventOrderIdx) ∧
      (∀ e ∈ S, 6 ≤ eventOrderIdx e) ∧ (∀ e ∈ S, eventOrderIdx e ≤ 7))
    (hF : List.Sorted (· ≤ ·) (F.map eventOrderIdx) ∧
      (∀ e ∈ F, 7 ≤ eventOrderIdx e) ∧ (∀ e ∈ F, eventOrderIdx e ≤ 8))
    (hT : T = [] ∨ ∃ t x, T = [Event.winTier t x]) :
    List.Sorted (· ≤ ·)
      (([Event.reveal grid] ++ Sp ++ Awin ++ M ++ R ++ W ++ S ++ F ++ T).map eventOrderIdx) ∧
    (∀ e ∈ ([Event.reveal grid] ++ Sp ++ Awin ++ M ++ R ++ W ++ S ++ F ++ T).dropLast,
      isWinTierB e = false) ∧
    (∀ r d m2, Event.eventStart "afterpartyRage" r d m2 ∈
        ([Event.reveal grid] ++ Sp ++ Awin ++ M ++ R ++ W ++ S ++ F ++ T) →
      ∃ v, List.IsInfix
        [Event.afterpartyMeterUpdate v true, Event.eventStart "afterpartyRage" r d m2]
        ([Event.reveal grid] ++ Sp ++ Awin ++ M ++ R ++ W ++ S ++ F ++ T)) := by
  have hMfacts : List.Sorted (· ≤ ·) (M.map eventOrderIdx) ∧
      (∀ e ∈ M, 3 ≤ eventOrderIdx e) ∧ (∀ e ∈ M, eventOrderIdx e ≤ 5) := by
    rcases hM with rfl | ⟨v, b, rfl⟩ | ⟨v, rfl⟩ <;>
      exact ⟨by simp [eventOrderIdx], by simp [eventOrderIdx], by simp [eventOrderIdx]⟩
  have hTfacts : List.Sorted (· ≤ ·) (T.map eventOrderIdx) ∧
      (∀ e ∈ T, 9 ≤ eventOrderIdx e) := by
    rcases hT with rfl | ⟨t, x, rfl⟩ <;> exact ⟨by simp [eventOrderIdx], by simp [eventOrderIdx]⟩
  have sSp := sorted_map_of_const Sp 1 hSp
  have sAwin := sorted_map_of_const Awin 2 hAwin
  have sR := sorted_map_of_const R 4 hR
  have sW := sorted_map_of_const W 5 hW5
  have s1 : List.Sorted (· ≤ ·) (([Event.reveal grid]).map eventOrderIdx) := by
    simp [eventOrderIdx]
  have s2 := sorted_append_bound [Event.reveal grid] Sp 0 s1 sSp
    (by simp [eventOrderIdx]) (fun e he => Nat.zero_le _)
  have hi2 : ∀ e ∈ [Event.reveal grid] ++ Sp, eventOrderIdx e ≤ 1 :=
    hi_append _ _ 1 (by simp [eventOrderIdx]) (fun e he => (hSp e he).le)
  have s3 := sorted_append_bound ([Event.reveal grid] ++ Sp) Awin 1 s2 sAwin hi2
    (fun e he => le_trans (by decide) (hAwin e he).ge)
  have hi3 : ∀ e ∈ [Event.reveal grid] ++ Sp ++ Awin, eventOrderIdx e ≤ 2 :=
    hi_append _ _ 2 (hi_mono _ 2 1 (by decide) hi2) (fun e he => (hAwin e he).le)
  rcases hMR with rfl | rfl
  · -- meter segment empty (the input state is rage-active)
    rw [List.append_nil]
    have s4 := sorted_append_bound ([Event.reveal grid] ++ Sp ++ Awin) R 2 s3 sR hi3
      (fun e he => le_trans (by decide) (hR e he).ge)
    have hi4 : ∀ e ∈ [Event.reveal grid] ++ Sp ++ Awin ++ R, eventOrderIdx e ≤ 4 :=
      hi_append _ _ 4 (hi_mono _ 4 2 (by decide) hi3) (fun e he => (hR e he).le)
    have s5 := sorted_append_bound _ W 4 s4 sW hi4
      (fun e he => le_trans (by decide) (hW5 e he).ge)
    have hi5 : ∀ e ∈ [Event.reveal grid] ++ Sp ++ Awin ++ R ++ W, eventOrderIdx e ≤ 5 :=
      hi_append _ _ 5 (hi_mono _ 5 4 (by decide) hi4) (fun e he => (hW5 e he).le)
    have s6 := sorted_append_bound _ S 5 s5 hS.1 hi5
      (fun e he => le_trans (by decide) (hS.2.1 e he))
    have hi6 : ∀ e ∈ [Event.reveal grid] ++ Sp ++ Awin ++ R ++ W ++ S, eventOrderIdx e ≤ 7 :=
      hi_append _ _ 7 (hi_mono _ 7 5 (by decide) hi5) hS.2.2
    have s7 := sorted_append_bound _ F 7 s6 hF.1 hi6 hF.2.1
    have hi7 : ∀ e ∈ [Event.reveal grid] ++ Sp ++ Awin ++ R ++ W ++ S ++ F,
        eventOrderIdx e ≤ 8 :=
      hi_append _ _ 8 (hi_mono _ 8 7 (by decide) hi6) hF.2.2
    have s8 := sorted_append_bound _ T 8 s7 hTfacts.1 hi7
      (fun e he => le_trans (by decide) (hTfacts.2 e he))
    refine ⟨s8, ?_, ?_⟩
    · rcases hT with rfl | ⟨t, x, rfl⟩
      · rw [List.append_nil]
        intro e he
        exact isWinTierB_false_of_le e (hi7 e ((List.dropLast_sublist _).subset he))
      · rw [List.dropLast_concat]
        intro e he
        exact isWinTierB_false_of_le e (hi7 e he)
    · intro r d m2 hmem
      simp only [List.append_assoc, List.mem_append] at hmem
      rcases hmem with h | h | h | h | h | h | h | h
      · simp at h
      · have := hSp _ h
        simp [eventOrderIdx] at this
      · have := hAwin _ h
        simp [eventOrderIdx] at this
      · have := hR _ h
        simp [eventOrderIdx] at this
      · exact absurd h (hWnr r d m2)
      · have := hS.2.1 _ h
        simp [eventOrderIdx] at this
      · have := hF.2.1 _ h
        simp [eventOrderIdx] at this
      · have := hTfacts.2 _ h
        simp [eventOrderIdx] at this
  · -- rage-end segment empty (the input state is not rage-active)
    rw [List.append_nil]
    have s4 := sorted_append_bound ([Event.reveal grid] ++ Sp ++ Awin) M 2 s3 hMfacts.1 hi3
      (fun e he => le_trans (by decide) (hMfacts.2.1 e he))
    have hi4 : ∀ e ∈ [Event.reveal grid] ++ Sp ++ Awin ++ M, eventOrderIdx e ≤ 5 :=
      hi_append _ _ 5 (hi_mono _ 5 2 (by decide) hi3) hMfacts.2.2
    have s5 := sorted_append_bound _ W 5 s4 sW hi4 (fun e he => (hW5 e he).ge)
    have hi5 : ∀ e ∈ [Event.reveal grid] ++ Sp ++ Awin ++ M ++ W, eventOrderIdx e ≤ 5 :=
      hi_append _ _ 5 hi4 (fun e he => (hW5 e he).le)
    have s6 := sorted_append_bound _ S 5 s5 hS.1 hi5
      (fun e he => le_trans (by decide) (hS.2.1 e he))
    have hi6 : ∀ e ∈ [Event.reveal grid] ++ Sp ++ Awin ++ M ++ W ++ S, eventOrderIdx e ≤ 7 :=
      hi_append _ _ 7 (hi_mono _ 7 5 (by decide) hi5) hS.2.2
    have s7 := sorted_append_bound _ F 7 s6 hF.1 hi6 hF.2.1
    have hi7 : ∀ e ∈ [Event.reveal grid] ++ Sp ++ Awin ++ M ++ W ++ S ++ F,
        eventOrderIdx e ≤ 8 :=
      hi_append _ _ 8 (hi_mono _ 8 7 (by decide) hi6) hF.2.2
    have s8 := sorted_append_bound _ T 8 s7 hTfacts.1 hi7
      (fun e he => le_trans (by decide) (hTfacts.2 e he))
    refine ⟨s8, ?_, ?_⟩
    · rcases hT with rfl | ⟨t, x, rfl⟩
      · rw [List.append_nil]
        intro e he
        exact isWinTierB_false_of_le e (hi7 e ((List.dropLast_sublist _).subset he))
      · rw [List.dropLast_concat]
        intro e he
        exact isWinTierB_false_of_le e (hi7 e he)
    · intro r d m2 hmem
      simp only [List.append_assoc, List.mem_append] at hmem
      rcases hmem with h | h | h | h | h | h | h | h
      · simp at h
      · have := hSp _ h
        simp [eventOrderIdx] at this
      · have := hAwin _ h
        simp [eventOrderIdx] at this
      · rcases hM with rfl | ⟨v, b, rfl⟩ | ⟨v, rfl⟩
        · simp at h
        · simp at h
        · simp only [List.mem_cons, List.mem_singleton, List.not_mem_nil, or_false] at h
          rcases h with h | h
          · exact absurd h (by simp)
          · rw [Event.eventStart.injEq] at h
            obtain ⟨-, rfl, rfl, rfl⟩ := h
            refine ⟨v, ?_⟩
            have hsh : ([Event.reveal grid] ++ Sp ++ Awin ++
                [Event.afterpartyMeterUpdate v true,
                 Event.eventStart "afterpartyRage" "meter_full" AFTERPARTY_RAGE_SPINS
                   (some AFTERPARTY_RAGE_MULTIPLIER)] ++ W ++ S ++ F ++ T) =
                ([Event.reveal grid] ++ Sp ++ Awin) ++
                [Event.afterpartyMeterUpdate v true,
                 Event.eventStart "afterpartyRage" "meter_full" AFTERPARTY_RAGE_SPINS
                   (some AFTERPARTY_RAGE_MULTIPLIER)] ++
                (W ++ (S ++ (F ++ T))) := by
              simp [List.append_assoc]
            rw [hsh]
            exact List.infix_append _ _ _
      · exact absurd h (hWnr r d m2)
      · have := hS.2.1 _ h
        simp [eventOrderIdx] at this
      · have := hF.2.1 _ h
        simp [eventOrderIdx] at this
      · have := hTfacts.2 _ h
        simp [eventOrderIdx] at this

theorem spotEvents_idx (l : List ℕ) : ∀ e ∈ spotEvents l, eventOrderIdx e = 1 := by
  rcases spotEvents_cases l with h | h <;> rw [h] <;> simp [eventOrderIdx]

theorem stepRage_events_idx (rd n : GameState) :
    ∀ e ∈ (stepRage rd n).2, eventOrderIdx e = 4 := by
  rcases stepRage_events_cases rd n with h | h <;> rw [h] <;> simp [eventOrderIdx]

theorem stepWindow_events_idx (rd n : GameState) (twx : ℚ) :
    ∀ e ∈ (stepWindow rd n twx).2, eventOrderIdx e = 5 := by
  rcases stepWindow_events_cases rd n twx with h | h | h | h <;> rw [h] <;>
    simp [eventOrderIdx]

theorem stepWindow_no_rage (rd n : GameState) (twx : ℚ) :
    ∀ r d m2, Event.eventStart "afterpartyRage" r d m2 ∉ (stepWindow rd n twx).2 := by
  intro r d m2 hmem
  rcases stepWindow_events_cases rd n twx with h | h | h | h <;> rw [h] at hmem <;>
    simp at hmem

theorem stepScatter_events_facts (rd n : GameState) (sc : ℕ) :
    List.Sorted (· ≤ ·) ((stepScatterTrigger rd n sc).2.map eventOrderIdx) ∧
    (∀ e ∈ (stepScatterTrigger rd n sc).2, 6 ≤ eventOrderIdx e) ∧
    (∀ e ∈ (stepScatterTrigger rd n sc).2, eventOrderIdx e ≤ 7) := by
  rcases stepScatter_events_cases rd n sc with h | ⟨cnt, h⟩ <;> rw [h] <;>
    exact ⟨by simp [eventOrderIdx], by simp [eventOrderIdx], by simp [eventOrderIdx]⟩

theorem stepFreeSpins_events_facts (rd n : GameState) (tw twx : ℚ) :
    List.Sorted (· ≤ ·) ((stepFreeSpins rd n tw twx).2.map eventOrderIdx) ∧
    (∀ e ∈ (stepFreeSpins rd n tw twx).2, 7 ≤ eventOrderIdx e) ∧
    (∀ e ∈ (stepFreeSpins rd n tw twx).2, eventOrderIdx e ≤ 8) := by
  rcases stepFreeSpins_events_cases rd n tw twx with
    h | ⟨lv, h⟩ | ⟨a, b, x, v, h⟩ | ⟨lv, a, b, x, v, h⟩ <;> rw [h] <;>
    exact ⟨by simp [eventOrderIdx], by simp [eventOrderIdx], by simp [eventOrderIdx]⟩

/-- C7 (corrected): the counterexample.  A BUY_FEATURE spin's first emitted
event is `enterFreeSpins` (the buy-entry block appends `enterFreeSpins` and
`heatUpdate` before the `reveal` is emitted), so "reveal is always present
and first" fails, and with it the claimed subsequence property. -/
theorem event_order_counterexample :
    (spin constHalfStream {} 1 SpinMode.BUY_FEATURE false none).1.events.head? =
      some (Event.enterFreeSpins 10 "buy_feature" "vip_buy") ∧
    (∀ grid2, Event.enterFreeSpins 10 "buy_feature" "vip_buy" ≠ Event.reveal grid2) := by
  constructor
  · with_unfolding_all decide
  · intro grid2 h
    exact Event.noConfusion h

/-- C7 (amended).  For every spin that does not take the buy-feature entry
branch, `reveal` is present and first; the emitted event types follow the
total order (reveal, spotlightWilds, winLine, afterpartyMeterUpdate,
eventEnd, eventStart, enterFreeSpins, heatUpdate, bonusEnd, winTier) — note
eventEnd before eventStart, the opposite of the claimed order, since the
rage eventEnd (step 11) is emitted before the boost/explosive eventStarts
(step 12); `winTier`, when present, is last; and every rage `eventStart` is
immediately preceded by the `afterpartyMeterUpdate` that triggered it.
BUY_FEATURE spins (see the counterexample) instead begin with
enterFreeSpins, heatUpdate and only then reveal. -/
theorem event_order_amended (g : RNGStream) (c : RNGCtr) (bet : ℚ)
    (mode : SpinMode) (hype : Bool) (state? : Option GameState)
    (hnb : ¬buyP mode state?) :
    (∃ rest, (spin g c bet mode hype state?).1.events =
      Event.reveal (spin g c bet mode hype state?).1.grid :: rest) ∧
    (List.Sorted (· ≤ ·)
        ((spin g c bet mode hype state?).1.events.map eventOrderIdx) ∧
     (∀ e ∈ (spin g c bet mode hype state?).1.events.dropLast,
        isWinTierB e = false) ∧
     (∀ r d m2, Event.eventStart "afterpartyRage" r d m2 ∈
          (spin g c bet mode hype state?).1.events →
        ∃ v, List.IsInfix
          [Event.afterpartyMeterUpdate v true,
           Event.eventStart "afterpartyRage" r d m2]
          (spin g c bet mode hype state?).1.events)) := by
  obtain ⟨grid, positions, tw, twx, w, sc, hev, hgrid⟩ :=
    spin_events_decomp g c bet mode hype state?
  rw [if_neg hnb] at hev
  simp only [spinSteps, if_neg hnb] at hev
  rw [List.nil_append] at hev
  rw [hgrid, hev]
  constructor
  · exact ⟨_, rfl⟩
  · refine events_order_assembly grid _ _ _ _ _ _ _ _
      (spotEvents_idx positions) (calculateWin_events grid bet)
      (stepMeter_events_cases _ _ tw w sc) (stepRage_events_idx _ _) ?_
      (stepWindow_events_idx _ _ twx) (stepWindow_no_rage _ _ twx)
      (stepScatter_events_facts _ _ sc) (stepFreeSpins_events_facts _ _ tw twx)
      (tierEvents_cases twx)
    cases hrage : (state?.getD {}).rage_active
    · right
      rw [stepRage_skip _ _ (by simp [hrage])]
    · left
      rw [stepMeter_skipRage _ _ _ _ _ hrage]

/-- Witness for C7 at a concrete input: a NORMAL spin from a fresh state is
not a buy, and its events start with the reveal. -/
theorem event_order_amended_witness :
    ¬buyP SpinMode.NORMAL (none : Option GameState) ∧
    ∃ rest, (spin constHalfStream {} 1 SpinMode.NORMAL false none).1.events =
      Event.reveal (spin constHalfStream {} 1 SpinMode.NORMAL false none).1.grid :: rest :=
  ⟨by decide,
   (event_order_amended constHalfStream {} 1 SpinMode.NORMAL false none (by decide)).1⟩

end VIP
